import Mathlib

/-!
# College registration front end: API client and view-state synchronisation

A shallow embedding of the JavaScript sources

* `frontend/src/app/services/apiService.js`
* `frontend/src/app/page.js`
* `frontend/src/app/components/StudentManager.js`
* `frontend/src/app/components/TeacherManager.js`
* `frontend/src/app/components/AssociateSubjectForm.js`

JavaScript values are a small datatype, thrown errors are `Except` errors, and the
React state of the three components together with the log of issued HTTP requests
is one record that every handler transforms.  What the platform decides (the answer
of the network, the outcome of the random sort, the confirmation dialog) is an
explicit parameter, `Env`.
-/

namespace CollegeApp

/-! ## JavaScript values -/

/-- The JavaScript values the program handles: the values `JSON.parse` produces,
plus `undefined` (an absent property) and `NaN` (a failed `parseInt`).  Numbers are
the integer-valued ones, which `Int` represents exactly.  An object is the list of its
own properties, each key once (of a repeated key the first entry counts). -/
inductive JsValue where
  | undefined
  | null
  | bool (b : Bool)
  | num (n : Int)
  | nan
  | str (s : String)
  | arr (items : List JsValue)
  | obj (props : List (String × JsValue))

namespace JsValue

/-- The conversion `ToBoolean`, used by `!x`, `x || y` and `cond && ...`. -/
def truthy : JsValue → Bool
  | undefined => false
  | null => false
  | bool b => b
  | num n => n != 0
  | nan => false
  | str s => s != ""
  | arr _ => true
  | obj _ => true

mutual
/-- The conversion `ToString`, used by template literals and by `parseInt`.  A number is
printed in full, as JavaScript prints the integers below `1e21`. -/
def toJsString : JsValue → String
  | undefined => "undefined"
  | null => "null"
  | bool true => "true"
  | bool false => "false"
  | num n => toString n
  | nan => "NaN"
  | str s => s
  | arr items => String.intercalate "," (itemStrings items)
  | obj _ => "[object Object]"
termination_by structural v => v
/-- The element strings of `Array.prototype.join`: `null` and `undefined` elements
give the empty string. -/
def itemStrings : List JsValue → List String
  | [] => []
  | undefined :: rest => "" :: itemStrings rest
  | null :: rest => "" :: itemStrings rest
  | x :: rest => toJsString x :: itemStrings rest
termination_by structural l => l
end

/-- The value of the own property `key` in a property list (`undefined` when absent). -/
def lookup (key : String) : List (String × JsValue) → JsValue
  | [] => undefined
  | (k, v) :: rest => if k = key then v else lookup key rest

/-- The value `v.key` for a `v` that is neither `null` nor `undefined`, for the data
property names the program reads (`message`, `id`, `name`, `year`, `enrollment`,
`registry`, `department`, `current_year`, `shift`, `subjects`): an object gives its
own property, every other value gives `undefined`. -/
def field (v : JsValue) (key : String) : JsValue :=
  match v with
  | obj props => lookup key props
  | _ => undefined

/-- The strict comparison `v === n` with a number literal `n`. -/
def strictEqNum (v : JsValue) (n : Int) : Bool :=
  match v with
  | num m => m == n
  | _ => false

/-- The strict comparison `v === ''`. -/
def strictEqEmptyString (v : JsValue) : Bool :=
  match v with
  | str s => s == ""
  | _ => false

/-- The test `v == null` of optional chaining: `v` is `null` or `undefined`. -/
def isNullish : JsValue → Bool
  | undefined => true
  | null => true
  | _ => false

/-- The list `Object.keys(v)` of an object: the names of its own properties. -/
def keys : JsValue → List String
  | obj props => props.map Prod.fst
  | _ => []

end JsValue

open JsValue

/-! ## Thrown errors -/

/-- The values the program can throw or receive as a rejection. -/
inductive JsError where
  /-- An `Error` made by `new Error(message)`. -/
  | error (message : String)
  /-- A `TypeError`, raised by the runtime (property of `null`, call of a non-function)
  or by `fetch` on a transport failure. -/
  | typeError (message : String)
  /-- A `SyntaxError`, raised by `response.json()` on a body that is not JSON. -/
  | syntaxError (message : String)
deriving DecidableEq, Repr

/-- The property `error.message`. -/
def JsError.message : JsError → String
  | .error m => m
  | .typeError m => m
  | .syntaxError m => m

/-- The property access `v.key`: a `TypeError` on `null` and `undefined`
(with the text V8 gives it), the value of the property otherwise. -/
def getProp (v : JsValue) (key : String) : Except JsError JsValue :=
  match v with
  | .undefined =>
      .error (.typeError ("Cannot read properties of undefined (reading '" ++ key ++ "')"))
  | .null =>
      .error (.typeError ("Cannot read properties of null (reading '" ++ key ++ "')"))
  | w => .ok (field w key)

/-- The callback-driven `Array.prototype.filter`: the callback runs on the elements in
index order and the first error it throws ends the call. -/
def filterE {α : Type} (p : α → Except JsError Bool) : List α → Except JsError (List α)
  | [] => .ok []
  | x :: rest =>
      match p x with
      | .error e => .error e
      | .ok keep =>
          match filterE p rest with
          | .error e => .error e
          | .ok kept => .ok (if keep then x :: kept else kept)

/-- The callback-driven `Array.prototype.map`, with the same error behaviour. -/
def mapE {α β : Type} (f : α → Except JsError β) : List α → Except JsError (List β)
  | [] => .ok []
  | x :: rest =>
      match f x with
      | .error e => .error e
      | .ok y =>
          match mapE f rest with
          | .error e => .error e
          | .ok ys => .ok (y :: ys)

/-- The characters `parseInt` skips at the start of its input (`StrWhiteSpaceChar`). -/
def isStrWhiteSpaceChar (c : Char) : Bool :=
  c.toNat ∈ [0x09, 0x0A, 0x0B, 0x0C, 0x0D, 0x20, 0xA0, 0x1680, 0x2028, 0x2029,
    0x202F, 0x205F, 0x3000, 0xFEFF] || (0x2000 ≤ c.toNat && c.toNat ≤ 0x200A)

/-- The value of a string of decimal digits. -/
def digitsValue (ds : List Char) : Nat :=
  ds.foldl (fun acc d => acc * 10 + (d.toNat - 48)) 0

/-- The call `parseInt(v, 10)`: the input is converted to a string, leading white space
and one sign are removed, and the longest prefix of decimal digits is read; `NaN` when
there is no digit.  The digits are read exactly, as JavaScript reads them up to `2 ^ 53`
(beyond it JavaScript rounds to the nearest double). -/
def parseInt (v : JsValue) : JsValue :=
  let s := (toJsString v).toList.dropWhile isStrWhiteSpaceChar
  let signed : Bool × List Char :=
    match s with
    | '-' :: t => (true, t)
    | '+' :: t => (false, t)
    | _ => (false, s)
  let digits := signed.2.takeWhile Char.isDigit
  if digits.isEmpty then .nan
  else if signed.1 then .num (-(digitsValue digits : Int))
  else .num (digitsValue digits : Int)

/-! ## HTTP -/

/-- An HTTP request as given to `fetch`: the method (`GET` when no option is given),
the URL, the headers, and the payload whose `JSON.stringify` text is the body. -/
structure Request where
  method : String
  url : String
  headers : List (String × String)
  body : Option JsValue

/-- A response as the program sees it: the status, the status phrase and the outcome of
`response.json()` (the parsed body, or the rejection of a body that does not parse). -/
structure Response where
  status : Nat
  statusText : String
  json : Except JsError JsValue

/-- The getter `response.ok`: the status is in the range 200 to 299. -/
def Response.ok (r : Response) : Bool :=
  decide (200 ≤ r.status) && decide (r.status ≤ 299)

/-- The constant `API_BASE_URL` of apiService.js. -/
def API_BASE_URL : String := "http://localhost:8080"

/-- The function `handleResponse` of apiService.js. -/
def handleResponse (response : Response) : Except JsError JsValue :=
  if !response.ok then
    -- response.json().catch(() => ({ message: 'Erro desconhecido da API' }))
    let errorData : JsValue :=
      match response.json with
      | .ok data => data
      | .error _ => .obj [("message", .str "Erro desconhecido da API")]
    match getProp errorData "message" with
    | .error e => .error e
    | .ok message =>
        .error (.error ("HTTP error! status: " ++ toString response.status ++ ", message: "
          ++ (if message.truthy then message.toJsString else response.statusText)))
  else
    response.json

/-! ## Program state and platform -/

/-- The React state of `Home`, `StudentManager`, `TeacherManager` and
`AssociateSubjectForm`, each field with the initial value its `useState` gives it, and
the log of the requests given to `fetch`, oldest first. -/
structure App where
  -- page.js
  students : List JsValue := []
  teachers : List JsValue := []
  subjects : List JsValue := []
  -- StudentManager.js
  studentName : String := ""
  currentYear : String := ""
  studentShift : String := "M"
  studentMessage : String := ""
  studentMessageType : String := ""
  editingStudent : JsValue := .null
  editStudentName : JsValue := .str ""
  editCurrentYear : JsValue := .str ""
  editStudentShift : JsValue := .str ""
  -- TeacherManager.js
  teacherName : String := ""
  teacherDepartment : String := ""
  teacherMessage : String := ""
  teacherMessageType : String := ""
  editingTeacher : JsValue := .null
  editTeacherName : JsValue := .str ""
  editTeacherDepartment : JsValue := .str ""
  -- AssociateSubjectForm.js
  selectedStudentId : JsValue := .str ""
  selectedSubjectId : JsValue := .str ""
  associationMessage : String := ""
  associationMessageType : String := ""
  -- the network
  requests : List Request := []

/-- What the platform decides: the outcome of `fetch` for a request (a response, or the
rejection of a transport failure), the array `Array.prototype.sort` leaves when it is
called with the comparator `() => 0.5 - Math.random()`, and the answer of `window.confirm`. -/
structure Env where
  fetch : Request → Except JsError Response
  sortRandom : List JsValue → List JsValue
  confirm : String → Bool

/-- An action of the program: it transforms the state and either returns a value or
throws.  The state changes made before a throw stay. -/
def Act (α : Type) : Type := App → Except JsError α × App

namespace Act

/-- The action that returns `a`. -/
def ret {α : Type} (a : α) : Act α := fun s => (.ok a, s)

/-- Sequencing: `f` runs on the value of `x`, and not at all when `x` throws. -/
def andThen {α β : Type} (x : Act α) (f : α → Act β) : Act β := fun s =>
  match x s with
  | (.ok a, s1) => f a s1
  | (.error e, s1) => (.error e, s1)

/-- The statement `throw e`. -/
def raise {α : Type} (e : JsError) : Act α := fun s => (.error e, s)

/-- The statement `try x catch (error) h`. -/
def attempt {α : Type} (x : Act α) (h : JsError → Act α) : Act α := fun s =>
  match x s with
  | (.ok a, s1) => (.ok a, s1)
  | (.error e, s1) => h e s1

/-- A computation without effect on the state, run as an action. -/
def lift {α : Type} (x : Except JsError α) : Act α := fun s => (x, s)

/-- The current state (the values the handler closes over). -/
def read : Act App := fun s => (.ok s, s)

/-- A state setter. -/
def update (f : App → App) : Act Unit := fun s => (.ok (), f s)

/-- A call of an async function whose promise is not awaited: its effects happen, and a
rejection does not reach the caller. -/
def detached (x : Act Unit) : Act Unit := fun s => (.ok (), (x s).2)

end Act

instance : Monad Act where
  pure := Act.ret
  bind := Act.andThen

instance : MonadExcept JsError Act where
  throw := Act.raise
  tryCatch := Act.attempt

/-- The call `fetch(url, options)`: the request is recorded and the platform answers. -/
def httpFetch (env : Env) (req : Request) : Act Response := fun s =>
  (env.fetch req, { s with requests := s.requests ++ [req] })

/-! ## apiService.js -/

namespace studentService

/-- The request of `studentService.getAll`. -/
def getAllRequest : Request :=
  { method := "GET", url := API_BASE_URL ++ "/students", headers := [], body := none }

/-- The request of `studentService.create`. -/
def createRequest (studentData : JsValue) : Request :=
  { method := "POST", url := API_BASE_URL ++ "/students",
    headers := [("Content-Type", "application/json")], body := some studentData }

/-- The request of `studentService.update`. -/
def updateRequest (id : JsValue) (studentData : JsValue) : Request :=
  { method := "PUT", url := API_BASE_URL ++ "/students/" ++ id.toJsString,
    headers := [("Content-Type", "application/json")], body := some studentData }

/-- The request of `studentService.delete`. -/
def deleteRequest (id : JsValue) : Request :=
  { method := "DELETE", url := API_BASE_URL ++ "/students/" ++ id.toJsString,
    headers := [], body := none }

/-- The request of `studentService.addSubject`. -/
def addSubjectRequest (studentId subjectId : JsValue) : Request :=
  { method := "POST",
    url := API_BASE_URL ++ "/students/" ++ studentId.toJsString ++ "/subjects/"
      ++ subjectId.toJsString,
    headers := [], body := none }

/-- The request of `studentService.removeSubject`. -/
def removeSubjectRequest (studentId subjectId : JsValue) : Request :=
  { method := "DELETE",
    url := API_BASE_URL ++ "/students/" ++ studentId.toJsString ++ "/subjects/"
      ++ subjectId.toJsString,
    headers := [], body := none }

/-- The function `studentService.getAll`. -/
def getAll (env : Env) : Act JsValue := do
  let response ← httpFetch env getAllRequest
  Act.lift (handleResponse response)

/-- The function `studentService.create`. -/
def create (env : Env) (studentData : JsValue) : Act JsValue := do
  let response ← httpFetch env (createRequest studentData)
  Act.lift (handleResponse response)

/-- The function `studentService.update`. -/
def update (env : Env) (id : JsValue) (studentData : JsValue) : Act JsValue := do
  let response ← httpFetch env (updateRequest id studentData)
  Act.lift (handleResponse response)

/-- The function `studentService.delete`. -/
def delete (env : Env) (id : JsValue) : Act JsValue := do
  let response ← httpFetch env (deleteRequest id)
  if !response.ok then
    throw (JsError.error ("HTTP error! status: " ++ toString response.status))
  return JsValue.null

/-- The function `studentService.addSubject`. -/
def addSubject (env : Env) (studentId subjectId : JsValue) : Act JsValue := do
  let response ← httpFetch env (addSubjectRequest studentId subjectId)
  Act.lift (handleResponse response)

/-- The function `studentService.removeSubject`. -/
def removeSubject (env : Env) (studentId subjectId : JsValue) : Act JsValue := do
  let response ← httpFetch env (removeSubjectRequest studentId subjectId)
  if !response.ok then
    throw (JsError.error ("HTTP error! status: " ++ toString response.status))
  return JsValue.null

end studentService

namespace teacherService

/-- The request of `teacherService.getAll`. -/
def getAllRequest : Request :=
  { method := "GET", url := API_BASE_URL ++ "/teachers", headers := [], body := none }

/-- The request of `teacherService.create`. -/
def createRequest (teacherData : JsValue) : Request :=
  { method := "POST", url := API_BASE_URL ++ "/teachers",
    headers := [("Content-Type", "application/json")], body := some teacherData }

/-- The request of `teacherService.update`. -/
def updateRequest (id : JsValue) (teacherData : JsValue) : Request :=
  { method := "PUT", url := API_BASE_URL ++ "/teachers/" ++ id.toJsString,
    headers := [("Content-Type", "application/json")], body := some teacherData }

/-- The request of `teacherService.delete`. -/
def deleteRequest (id : JsValue) : Request :=
  { method := "DELETE", url := API_BASE_URL ++ "/teachers/" ++ id.toJsString,
    headers := [], body := none }

/-- The function `teacherService.getAll`. -/
def getAll (env : Env) : Act JsValue := do
  let response ← httpFetch env getAllRequest
  Act.lift (handleResponse response)

/-- The function `teacherService.create`. -/
def create (env : Env) (teacherData : JsValue) : Act JsValue := do
  let response ← httpFetch env (createRequest teacherData)
  Act.lift (handleResponse response)

/-- The function `teacherService.update`. -/
def update (env : Env) (id : JsValue) (teacherData : JsValue) : Act JsValue := do
  let response ← httpFetch env (updateRequest id teacherData)
  Act.lift (handleResponse response)

/-- The function `teacherService.delete`. -/
def delete (env : Env) (id : JsValue) : Act JsValue := do
  let response ← httpFetch env (deleteRequest id)
  if !response.ok then
    throw (JsError.error ("HTTP error! status: " ++ toString response.status))
  return JsValue.null

end teacherService

namespace subjectService

/-- The request of `subjectService.getAll`. -/
def getAllRequest : Request :=
  { method := "GET", url := API_BASE_URL ++ "/subjects", headers := [], body := none }

/-- The function `subjectService.getAll`. -/
def getAll (env : Env) : Act JsValue := do
  let response ← httpFetch env getAllRequest
  Act.lift (handleResponse response)

end subjectService

/-! ## page.js -/

/-- The expression `Array.isArray(data) ? data : []`. -/
def arrayOrEmpty (data : JsValue) : List JsValue :=
  match data with
  | .arr items => items
  | _ => []

/-- The function `fetchStudentsGlobal` of page.js. -/
def fetchStudentsGlobal (env : Env) : Act Unit :=
  try
    let data ← studentService.getAll env
    Act.update fun s => { s with students := arrayOrEmpty data }
  catch _ =>
    Act.update fun s => { s with students := [] }

/-- The function `fetchTeachersGlobal` of page.js. -/
def fetchTeachersGlobal (env : Env) : Act Unit :=
  try
    let data ← teacherService.getAll env
    Act.update fun s => { s with teachers := arrayOrEmpty data }
  catch _ =>
    Act.update fun s => { s with teachers := [] }

/-- The function `fetchSubjectsGlobal` of page.js. -/
def fetchSubjectsGlobal (env : Env) : Act Unit :=
  try
    let data ← subjectService.getAll env
    Act.update fun s => { s with subjects := arrayOrEmpty data }
  catch _ =>
    Act.update fun s => { s with subjects := [] }

/-- The effect `Home` runs when it is mounted: the three refetches are called in turn,
none of them awaited.  Each refetch writes its own collection only, so the order in
which the three complete is immaterial (`mountEffect_order_irrelevant`). -/
def mountEffect (env : Env) : Act Unit := do
  Act.detached (fetchStudentsGlobal env)
  Act.detached (fetchTeachersGlobal env)
  Act.detached (fetchSubjectsGlobal env)

/-- The collection a refetch stores for an outcome of `getAll`: the array itself when the
value is an array and `[]` for any other value (`Array.isArray(data) ? data : []`), and
`[]` for a failure (the `catch` branch). -/
def storedListing (outcome : Except JsError JsValue) : List JsValue :=
  match outcome with
  | .ok data => arrayOrEmpty data
  | .error _ => []

/-! ## StudentManager.js -/

/-- The callback `sub => sub.year === 1`. -/
def isFirstYear (sub : JsValue) : Except JsError Bool :=
  match getProp sub "year" with
  | .error e => .error e
  | .ok year => .ok (year.strictEqNum 1)

/-- The year-1 pool of a subjects collection: the elements that the callback
`sub => sub.year === 1` keeps. -/
def firstYearPool (subjects : List JsValue) : List JsValue :=
  subjects.filter fun sub => (field sub "year").strictEqNum 1

/-- The callback `sub => ({ id: sub.id })`. -/
def idOnly (sub : JsValue) : Except JsError JsValue :=
  match getProp sub "id" with
  | .error e => .error e
  | .ok id => .ok (.obj [("id", id)])

/-- The expression `subjects?.map(sub => ({id: sub.id})) || []` on the value of
`editingStudent.subjects`: `[]` for `null` and `undefined`, the mapped array for an
array, and a `TypeError` for any other value, which has no method `map`. -/
def subjectIdsOrEmpty (subjects : JsValue) : Except JsError JsValue :=
  match subjects with
  | .undefined => .ok (.arr [])
  | .null => .ok (.arr [])
  | .arr items =>
      match mapE idOnly items with
      | .error e => .error e
      | .ok ids => .ok (.arr ids)
  | _ => .error (.typeError "editingStudent.subjects?.map is not a function")

/-- The function `handleStudentSubmit` of StudentManager.js. -/
def handleStudentSubmit (env : Env) : Act Unit := do
  let c ← Act.read
  Act.update fun s => { s with studentMessage := "" }
  Act.update fun s => { s with studentMessageType := "" }
  let firstYearSubjects ← Act.lift (filterE isFirstYear c.subjects)
  -- `sort` works in place: from here on `firstYearSubjects` is the sorted array
  let shuffledSubjects := env.sortRandom firstYearSubjects
  let selectedSubjectIds ← Act.lift (mapE idOnly (shuffledSubjects.take 5))
  if selectedSubjectIds.length < 5 && shuffledSubjects.length > 0 then
    Act.update fun s => { s with studentMessage :=
      "Aviso: Não há 5 matérias suficientes do primeiro ano para associar." }
    Act.update fun s => { s with studentMessageType := "error" }
  else if shuffledSubjects.length == 0 then
    Act.update fun s => { s with studentMessage :=
      "Aviso: Nenhuma matéria do primeiro ano disponível para associação automática." }
    Act.update fun s => { s with studentMessageType := "error" }
  try
    let newStudent ← studentService.create env
      (.obj [("name", .str c.studentName),
             ("current_year", parseInt (.str c.currentYear)),
             ("shift", .str c.studentShift),
             ("subjects", .arr selectedSubjectIds)])
    let name ← Act.lift (getProp newStudent "name")
    let enrollment ← Act.lift (getProp newStudent "enrollment")
    Act.update fun s => { s with studentMessage :=
      "Aluno \"" ++ name.toJsString ++ "\" cadastrado com sucesso! Matrícula: "
        ++ enrollment.toJsString }
    Act.update fun s => { s with studentMessageType := "success" }
    Act.update fun s => { s with studentName := "" }
    Act.update fun s => { s with currentYear := "" }
    Act.update fun s => { s with studentShift := "M" }
    Act.detached (fetchStudentsGlobal env)
  catch error =>
    Act.update fun s => { s with studentMessage :=
      "Erro ao cadastrar aluno: " ++ error.message }
    Act.update fun s => { s with studentMessageType := "error" }

/-- The function `handleDeleteStudent` of StudentManager.js. -/
def handleDeleteStudent (env : Env) (id name : JsValue) : Act Unit := do
  if env.confirm ("Tem certeza que deseja deletar o aluno " ++ name.toJsString ++ "?") then
    try
      let _ ← studentService.delete env id
      Act.update fun s => { s with studentMessage :=
        "Aluno \"" ++ name.toJsString ++ "\" deletado com sucesso!" }
      Act.update fun s => { s with studentMessageType := "success" }
      Act.detached (fetchStudentsGlobal env)
    catch error =>
      Act.update fun s => { s with studentMessage :=
        "Erro ao deletar aluno: " ++ error.message }
      Act.update fun s => { s with studentMessageType := "error" }

/-- The function `handleUpdateStudent` of StudentManager.js. -/
def handleUpdateStudent (student : JsValue) : Act Unit := do
  Act.update fun s => { s with editingStudent := student }
  let name ← Act.lift (getProp student "name")
  Act.update fun s => { s with editStudentName := name }
  let currentYear ← Act.lift (getProp student "current_year")
  Act.update fun s => { s with editCurrentYear := currentYear }
  let shift ← Act.lift (getProp student "shift")
  Act.update fun s => { s with editStudentShift := shift }
  Act.update fun s => { s with studentMessage := "" }

/-- The function `handleCancelEditStudent` of StudentManager.js. -/
def handleCancelEditStudent : Act Unit := do
  Act.update fun s => { s with editingStudent := .null }
  Act.update fun s => { s with editStudentName := .str "" }
  Act.update fun s => { s with editCurrentYear := .str "" }
  Act.update fun s => { s with editStudentShift := .str "M" }
  Act.update fun s => { s with studentMessage := "" }

/-- The function `handleUpdateStudentSubmit` of StudentManager.js. -/
def handleUpdateStudentSubmit (env : Env) : Act Unit := do
  let c ← Act.read
  Act.update fun s => { s with studentMessage := "" }
  Act.update fun s => { s with studentMessageType := "" }
  if !c.editingStudent.truthy then
    return
  try
    let id ← Act.lift (getProp c.editingStudent "id")
    let enrollment ← Act.lift (getProp c.editingStudent "enrollment")
    let subjects ← Act.lift (getProp c.editingStudent "subjects")
    let subjectIds ← Act.lift (subjectIdsOrEmpty subjects)
    let updatedStudent ← studentService.update env id
      (.obj [("enrollment", enrollment),
             ("name", c.editStudentName),
             ("current_year", parseInt c.editCurrentYear),
             ("shift", c.editStudentShift),
             ("subjects", subjectIds)])
    let name ← Act.lift (getProp updatedStudent "name")
    Act.update fun s => { s with studentMessage :=
      "Aluno \"" ++ name.toJsString ++ "\" atualizado com sucesso!" }
    Act.update fun s => { s with studentMessageType := "success" }
    Act.update fun s => { s with editingStudent := .null }
    Act.detached (fetchStudentsGlobal env)
  catch error =>
    Act.update fun s => { s with studentMessage :=
      "Erro ao atualizar aluno: " ++ error.message }
    Act.update fun s => { s with studentMessageType := "error" }

/-! ## TeacherManager.js -/

/-- The function `handleTeacherSubmit` of TeacherManager.js. -/
def handleTeacherSubmit (env : Env) : Act Unit := do
  let c ← Act.read
  Act.update fun s => { s with teacherMessage := "" }
  Act.update fun s => { s with teacherMessageType := "" }
  try
    let newTeacher ← teacherService.create env
      (.obj [("name", .str c.teacherName), ("department", .str c.teacherDepartment)])
    let name ← Act.lift (getProp newTeacher "name")
    let registry ← Act.lift (getProp newTeacher "registry")
    Act.update fun s => { s with teacherMessage :=
      "Professor \"" ++ name.toJsString ++ "\" cadastrado com sucesso! Registro: "
        ++ registry.toJsString }
    Act.update fun s => { s with teacherMessageType := "success" }
    Act.update fun s => { s with teacherName := "" }
    Act.update fun s => { s with teacherDepartment := "" }
    Act.detached (fetchTeachersGlobal env)
  catch error =>
    Act.update fun s => { s with teacherMessage :=
      "Erro ao cadastrar professor: " ++ error.message }
    Act.update fun s => { s with teacherMessageType := "error" }

/-- The function `handleDeleteTeacher` of TeacherManager.js. -/
def handleDeleteTeacher (env : Env) (id name : JsValue) : Act Unit := do
  if env.confirm ("Tem certeza que deseja deletar o professor " ++ name.toJsString ++ "?") then
    try
      let _ ← teacherService.delete env id
      Act.update fun s => { s with teacherMessage :=
        "Professor \"" ++ name.toJsString ++ "\" deletado com sucesso!" }
      Act.update fun s => { s with teacherMessageType := "success" }
      Act.detached (fetchTeachersGlobal env)
    catch error =>
      Act.update fun s => { s with teacherMessage :=
        "Erro ao deletar professor: " ++ error.message }
      Act.update fun s => { s with teacherMessageType := "error" }

/-- The function `handleUpdateTeacher` of TeacherManager.js. -/
def handleUpdateTeacher (teacher : JsValue) : Act Unit := do
  Act.update fun s => { s with editingTeacher := teacher }
  let name ← Act.lift (getProp teacher "name")
  Act.update fun s => { s with editTeacherName := name }
  let department ← Act.lift (getProp teacher "department")
  Act.update fun s => { s with editTeacherDepartment := department }
  Act.update fun s => { s with teacherMessage := "" }

/-- The function `handleCancelEditTeacher` of TeacherManager.js. -/
def handleCancelEditTeacher : Act Unit := do
  Act.update fun s => { s with editingTeacher := .null }
  Act.update fun s => { s with editTeacherName := .str "" }
  Act.update fun s => { s with editTeacherDepartment := .str "" }
  Act.update fun s => { s with teacherMessage := "" }

/-- The function `handleUpdateTeacherSubmit` of TeacherManager.js. -/
def handleUpdateTeacherSubmit (env : Env) : Act Unit := do
  let c ← Act.read
  Act.update fun s => { s with teacherMessage := "" }
  Act.update fun s => { s with teacherMessageType := "" }
  if !c.editingTeacher.truthy then
    return
  try
    let id ← Act.lift (getProp c.editingTeacher "id")
    let registry ← Act.lift (getProp c.editingTeacher "registry")
    let updatedTeacher ← teacherService.update env id
      (.obj [("registry", registry),
             ("name", c.editTeacherName),
             ("department", c.editTeacherDepartment)])
    let name ← Act.lift (getProp updatedTeacher "name")
    Act.update fun s => { s with teacherMessage :=
      "Professor \"" ++ name.toJsString ++ "\" atualizado com sucesso!" }
    Act.update fun s => { s with teacherMessageType := "success" }
    Act.update fun s => { s with editingTeacher := .null }
    Act.detached (fetchTeachersGlobal env)
  catch error =>
    Act.update fun s => { s with teacherMessage :=
      "Erro ao atualizar professor: " ++ error.message }
    Act.update fun s => { s with teacherMessageType := "error" }

/-! ## AssociateSubjectForm.js -/

/-- The function `handleAssociateSubject` of AssociateSubjectForm.js; the callback
`onAssociateSuccess` is `fetchStudentsGlobal`, as `Home` passes it. -/
def handleAssociateSubject (env : Env) : Act Unit := do
  let c ← Act.read
  Act.update fun s => { s with associationMessage := "" }
  Act.update fun s => { s with associationMessageType := "" }
  if !c.selectedStudentId.truthy || !c.selectedSubjectId.truthy then
    Act.update fun s => { s with associationMessage :=
      "Selecione um aluno e uma matéria para associar." }
    Act.update fun s => { s with associationMessageType := "error" }
    return
  try
    let _ ← studentService.addSubject env c.selectedStudentId c.selectedSubjectId
    Act.update fun s => { s with associationMessage :=
      "Matéria associada ao aluno com sucesso!" }
    Act.update fun s => { s with associationMessageType := "success" }
    Act.detached (fetchStudentsGlobal env)
  catch error =>
    Act.update fun s => { s with associationMessage :=
      "Erro ao associar matéria: " ++ error.message }
    Act.update fun s => { s with associationMessageType := "error" }

/-- The effect of AssociateSubjectForm.js (lines 18 to 25), run when the collections
change: a selection that is still the empty string is set to the id of the first student,
and of the first subject. -/
def selectionEffect : Act Unit := do
  let c ← Act.read
  if c.students.length > 0 && c.selectedStudentId.strictEqEmptyString then
    let id ← Act.lift (getProp (c.students.getD 0 .undefined) "id")
    Act.update fun s => { s with selectedStudentId := id }
  if c.subjects.length > 0 && c.selectedSubjectId.strictEqEmptyString then
    let id ← Act.lift (getProp (c.subjects.getD 0 .undefined) "id")
    Act.update fun s => { s with selectedSubjectId := id }

/-! ## The create forms -/

/-- The number that an input of type `number` holds for the text `text`, as a pair
`(m, e)` standing for `m * 10 ^ e`, and `none` when the text is not a valid floating-point
number of HTML (the input then holds the empty string).  A valid floating-point number is
an optional `-`, then digits, or `.` and digits, or both, then optionally an exponent: `e`
or `E`, an optional sign, digits. -/
def numberInputValue (text : String) : Option (Int × Int) :=
  let signed : Bool × List Char :=
    match text.toList with
    | '-' :: t => (true, t)
    | cs => (false, cs)
  let whole := signed.2.takeWhile Char.isDigit
  let afterWhole := signed.2.dropWhile Char.isDigit
  let fraction : Option (List Char × List Char) :=
    match afterWhole with
    | '.' :: t =>
        if (t.takeWhile Char.isDigit).isEmpty then none
        else some (t.takeWhile Char.isDigit, t.dropWhile Char.isDigit)
    | rest => some ([], rest)
  match fraction with
  | none => none
  | some (frac, rest) =>
      if whole.isEmpty && frac.isEmpty then none
      else
        let mantissa : Int :=
          if signed.1 then -(digitsValue (whole ++ frac) : Int)
          else (digitsValue (whole ++ frac) : Int)
        match rest with
        | [] => some (mantissa, -(frac.length : Int))
        | c :: t =>
            if c == 'e' || c == 'E' then
              let exponent : Bool × List Char :=
                match t with
                | '-' :: u => (true, u)
                | '+' :: u => (false, u)
                | u => (false, u)
              if exponent.2.isEmpty || !exponent.2.all Char.isDigit then none
              else if exponent.1 then
                some (mantissa, -(digitsValue exponent.2 : Int) - (frac.length : Int))
              else
                some (mantissa, (digitsValue exponent.2 : Int) - (frac.length : Int))
            else none

/-- The constraints `min="1"` and the default step of 1 counted from the minimum, on the
number `m * 10 ^ e`: it is at least 1 and whole. -/
def wholeAndAtLeastOne (value : Int × Int) : Bool :=
  if 0 ≤ value.2 then decide (1 ≤ value.1)
  else decide (value.1 % (10 : Int) ^ value.2.natAbs = 0)
    && decide ((10 : Int) ^ value.2.natAbs ≤ value.1)

/-- The constraints of the controls of the student create form (StudentManager.js, lines
136 to 166): the name is `required`, the year is of type `number`, `required` and has
`min="1"`, the shift is `required`. -/
def studentFormValid (s : App) : Bool :=
  s.studentName != ""
  && (match numberInputValue s.currentYear with
      | none => false
      | some value => wholeAndAtLeastOne value)
  && s.studentShift != ""

/-- The constraints of the controls of the teacher create form (TeacherManager.js, lines
114 to 131): the name and the department are `required`. -/
def teacherFormValid (s : App) : Bool :=
  s.teacherName != "" && s.teacherDepartment != ""

/-- A submit of the student create form by its button: the browser checks the constraints
of the controls and raises the `submit` event, which calls `handleStudentSubmit`, only
when all of them hold. -/
def submitStudentForm (env : Env) : Act Unit := do
  let c ← Act.read
  if studentFormValid c then
    handleStudentSubmit env

/-- A submit of the teacher create form by its button: `handleTeacherSubmit` is called only
when the constraints of the controls hold. -/
def submitTeacherForm (env : Env) : Act Unit := do
  let c ← Act.read
  if teacherFormValid c then
    handleTeacherSubmit env

/-! ## Arrays as objects -/

/-- The array objects alive while `handleStudentSubmit` selects the subjects, by address.
An array is an object: two names may denote the same one, and `sort` changes the object
it is called on. -/
structure ArrayHeap where
  cells : List (List JsValue)

namespace ArrayHeap

/-- The elements of the array at the address `a`. -/
def read (h : ArrayHeap) (a : Nat) : List JsValue :=
  h.cells.getD a []

/-- A new array with the elements `items`, and its address. -/
def alloc (h : ArrayHeap) (items : List JsValue) : ArrayHeap × Nat :=
  ({ cells := h.cells ++ [items] }, h.cells.length)

/-- The array at the address `a` overwritten with the elements `items`. -/
def write (h : ArrayHeap) (a : Nat) (items : List JsValue) : ArrayHeap :=
  { cells := h.cells.set a items }

end ArrayHeap

/-- Lines 31 to 33 of StudentManager.js on array objects, `subjects` being the address of
the shared subjects collection: `filter`, `slice` and `map` each return a new array, and
`sort` reorders the array it is called on and returns that same array.  The result is the
final heap with the addresses of `firstYearSubjects` (the array that `shuffledSubjects`
also names) and of `selectedSubjectIds`. -/
def selectSubjectsOnHeap (env : Env) (h : ArrayHeap) (subjects : Nat) :
    Except JsError (ArrayHeap × Nat × Nat) :=
  -- const firstYearSubjects = subjects.filter(sub => sub.year === 1);
  match filterE isFirstYear (h.read subjects) with
  | .error e => .error e
  | .ok kept =>
      let afterFilter := h.alloc kept
      let firstYearSubjects := afterFilter.2
      -- const shuffledSubjects = firstYearSubjects.sort(() => 0.5 - Math.random());
      let afterSort := afterFilter.1.write firstYearSubjects
        (env.sortRandom (afterFilter.1.read firstYearSubjects))
      let shuffledSubjects := firstYearSubjects
      -- shuffledSubjects.slice(0, 5)
      let afterSlice := afterSort.alloc ((afterSort.read shuffledSubjects).take 5)
      -- .map(sub => ({ id: sub.id }))
      match mapE idOnly (afterSlice.1.read afterSlice.2) with
      | .error e => .error e
      | .ok ids =>
          let afterMap := afterSlice.1.alloc ids
          .ok (afterMap.1, firstYearSubjects, afterMap.2)

/-! ## Example inputs -/

/-- A 500 response whose body is not JSON. -/
def unparseable500 : Response :=
  { status := 500, statusText := "Internal Server Error",
    json := .error (.syntaxError "Unexpected end of JSON input") }

/-- A 500 response whose body is the object with an empty `message`. -/
def emptyMessage500 : Response :=
  { status := 500, statusText := "Internal Server Error",
    json := .ok (.obj [("message", .str "")]) }

/-- A 500 response whose body is the JSON text `null`. -/
def nullBody500 : Response :=
  { status := 500, statusText := "Internal Server Error", json := .ok .null }

/-- A 404 response with the error body the server documents. -/
def notFound404 : Response :=
  { status := 404, statusText := "Not Found",
    json := .ok (.obj [("message", .str "not found")]) }

/-- A 204 response, which has no body to parse. -/
def noContent204 : Response :=
  { status := 204, statusText := "No Content",
    json := .error (.syntaxError "Unexpected end of JSON input") }

/-- A platform whose network answers every request with `r`, whose sort reverses the
array, and whose user confirms. -/
def envAnswering (r : Response) : Env :=
  { fetch := fun _ => .ok r, sortRandom := fun l => l.reverse, confirm := fun _ => true }

/-- A 200 response listing one record. -/
def listing200 : Response :=
  { status := 200, statusText := "OK",
    json := .ok (.arr [.obj [("id", .num 1), ("name", .str "Ana")]]) }

/-- A state whose three collections hold a record from an earlier fetch. -/
def staleApp : App :=
  { students := [.obj [("id", .num 9)]], teachers := [.obj [("id", .num 9)]],
    subjects := [.obj [("id", .num 9)]] }

/-- A platform whose network fails before any response arrives. -/
def envOffline : Env :=
  { fetch := fun _ => .error (.typeError "Failed to fetch"),
    sortRandom := fun l => l.reverse, confirm := fun _ => true }

/-- A platform that answers the students listing and fails at every other request. -/
def envStudentsOnly : Env :=
  { fetch := fun req =>
      if req.url = API_BASE_URL ++ "/students" then .ok listing200
      else .error (.typeError "Failed to fetch"),
    sortRandom := fun l => l.reverse, confirm := fun _ => true }

/-- A state in which the student with id 3 and enrollment `2024001` is being edited and
every draft field has been changed. -/
def editingStudentApp : App :=
  { editingStudent := .obj [("id", .num 3), ("enrollment", .str "2024001"),
      ("name", .str "Ana"), ("current_year", .num 1), ("shift", .str "M"),
      ("subjects", .arr [.obj [("id", .num 12), ("name", .str "Algebra"), ("year", .num 1)]])],
    editStudentName := .str "Ana Maria", editCurrentYear := .str "2",
    editStudentShift := .str "N" }

/-- A subject record. -/
def subjectRecord (id : Int) (name : String) (year : Int) : JsValue :=
  .obj [("id", .num id), ("name", .str name), ("year", .num year)]

/-- A state whose subjects collection holds three subjects of year 1 and one of year 2,
with the create form filled in for Ana. -/
def threeFirstYearApp : App :=
  { subjects := [subjectRecord 1 "Algebra" 1, subjectRecord 2 "Physics" 2,
      subjectRecord 3 "Logic" 1, subjectRecord 4 "Writing" 1],
    studentName := "Ana", currentYear := "1", studentShift := "M" }

/-- A state whose subjects collection holds no subject of year 1, with the create form
filled in for Ana. -/
def noFirstYearApp : App :=
  { subjects := [subjectRecord 2 "Physics" 2],
    studentName := "Ana", currentYear := "1", studentShift := "M" }

/-- The 201 response of a server that has created the student Ana. -/
def created201 : Response :=
  { status := 201, statusText := "Created",
    json := .ok (.obj [("id", .num 10), ("enrollment", .str "2024010"),
      ("name", .str "Ana"), ("current_year", .num 1), ("shift", .str "M")]) }

/-- A platform whose server creates the student Ana on a POST and lists her on a GET,
and whose sort reverses the array. -/
def envCreating : Env :=
  { fetch := fun req => if req.method = "POST" then .ok created201 else .ok listing200,
    sortRandom := fun l => l.reverse, confirm := fun _ => true }

/-- A platform whose user declines every confirmation prompt and whose server would
answer a request with 204. -/
def envDeclining : Env :=
  { fetch := fun _ => .ok noContent204, sortRandom := fun l => l.reverse,
    confirm := fun _ => false }

/-- A state of the association form with the student 3 and the subject 12 selected. -/
def pairSelectedApp : App :=
  { students := [.obj [("id", .num 3), ("name", .str "Ana")]],
    subjects := [subjectRecord 12 "Algebra" 1],
    selectedStudentId := .num 3, selectedSubjectId := .str "12" }

/-- A 200 response carrying the updated student. -/
def updated200 : Response :=
  { status := 200, statusText := "OK",
    json := .ok (.obj [("id", .num 3), ("name", .str "Ana"),
      ("subjects", .arr [.obj [("id", .num 12)]])]) }

/-- A platform whose server answers a POST with the updated student and a GET with a
listing. -/
def envAttaching : Env :=
  { fetch := fun req => if req.method = "POST" then .ok updated200 else .ok listing200,
    sortRandom := fun l => l.reverse, confirm := fun _ => true }

/-- The create forms filled in for the student Ana and the teacher Silva, with an empty
subjects collection. -/
def filledFormsApp : App :=
  { studentName := "Ana", currentYear := "2", studentShift := "N",
    teacherName := "Silva", teacherDepartment := "Physics" }

/-- A heap whose only array, at the address 0, is the subjects collection of
`threeFirstYearApp`. -/
def subjectsHeap : ArrayHeap :=
  { cells := [threeFirstYearApp.subjects] }

/-- A state of the association form after a listing whose first student has the id 0:
nothing is selected yet. -/
def zeroIdApp : App :=
  { students := [.obj [("id", .num 0), ("name", .str "Ana")]],
    subjects := [subjectRecord 12 "Algebra" 1] }

/-- The state of `zeroIdApp` with the same student and subject chosen through the select
controls, whose values are strings. -/
def zeroIdChosenApp : App :=
  { students := [.obj [("id", .num 0), ("name", .str "Ana")]],
    subjects := [subjectRecord 12 "Algebra" 1],
    selectedStudentId := .str "0", selectedSubjectId := .str "12" }

/-- A 201 response whose body is the JSON text `null`. -/
def createdNull201 : Response :=
  { status := 201, statusText := "Created", json := .ok .null }

/-- A platform whose server answers a POST with 201 and the body `null`, and a GET with a
listing. -/
def envCreatingNull : Env :=
  { fetch := fun req => if req.method = "POST" then .ok createdNull201 else .ok listing200,
    sortRandom := fun l => l.reverse, confirm := fun _ => true }

/-! ## The action monad -/

@[simp] theorem Act.pure_run {α : Type} (a : α) (s : App) :
    (pure a : Act α) s = (.ok a, s) := rfl

@[simp] theorem Act.bind_run {α β : Type} (x : Act α) (f : α → Act β) (s : App) :
    (x >>= f) s = match x s with
      | (.ok a, s1) => f a s1
      | (.error e, s1) => (.error e, s1) := rfl

@[simp] theorem Act.throw_run {α : Type} (e : JsError) (s : App) :
    (throw e : Act α) s = (.error e, s) := rfl

@[simp] theorem Act.tryCatch_run {α : Type} (x : Act α) (h : JsError → Act α) (s : App) :
    (tryCatch x h) s = match x s with
      | (.ok a, s1) => (.ok a, s1)
      | (.error e, s1) => h e s1 := rfl

@[simp] theorem Act.lift_run {α : Type} (x : Except JsError α) (s : App) :
    Act.lift x s = (x, s) := rfl

@[simp] theorem Act.read_run (s : App) : Act.read s = (.ok s, s) := rfl

@[simp] theorem Act.update_run (f : App → App) (s : App) :
    Act.update f s = (.ok (), f s) := rfl

@[simp] theorem Act.detached_run (x : Act Unit) (s : App) :
    Act.detached x s = (.ok (), (x s).2) := rfl

@[simp] theorem httpFetch_run (env : Env) (req : Request) (s : App) :
    httpFetch env req s = (env.fetch req, { s with requests := s.requests ++ [req] }) := rfl

/-! ## handleResponse -/

theorem getProp_of_not_nullish (v : JsValue) (key : String) (h : v.isNullish = false) :
    getProp v key = .ok (field v key) := by
  cases v <;> simp_all [getProp, isNullish]

theorem handleResponse_of_ok (r : Response) (h : r.ok = true) :
    handleResponse r = r.json := by
  simp [handleResponse, h]

theorem handleResponse_fails (r : Response) (h : r.ok = false) :
    ∃ e, handleResponse r = .error e := by
  unfold handleResponse
  simp only [h, Bool.not_false, if_true]
  split
  · exact ⟨_, rfl⟩
  · exact ⟨_, rfl⟩

/-- C1 (amended): for every non-success response `handleResponse` fails.  When the error
body parses to a value other than `null`, the failure is the `Error` with the text
`HTTP error! status: <status>, message: <m>`, where `m` is the `message` field of the
body when that field is present and truthy (a non-empty string, say), and the status
phrase `statusText` when the field is absent or falsy.  When the body does not parse,
`m` is the fallback `Erro desconhecido da API`. -/
theorem handleResponse_failure_message (r : Response) (hok : r.ok = false) :
    (∃ e, handleResponse r = .error e) ∧
    (∀ data, r.json = .ok data → data.isNullish = false →
      handleResponse r = .error (.error
        ("HTTP error! status: " ++ toString r.status ++ ", message: "
          ++ (if (field data "message").truthy then (field data "message").toJsString
              else r.statusText)))) ∧
    (∀ e, r.json = .error e →
      handleResponse r = .error (.error
        ("HTTP error! status: " ++ toString r.status ++ ", message: "
          ++ "Erro desconhecido da API"))) := by
  refine ⟨handleResponse_fails r hok, ?_, ?_⟩
  · intro data hjson hnn
    simp [handleResponse, hok, hjson, getProp_of_not_nullish data "message" hnn]
  · intro e hjson
    simp [handleResponse, hok, hjson, getProp, field, lookup, truthy, toJsString]

/-- C1 (witness): the 404 response with the body
`{message: "not found"}` fails with the server message. -/
theorem handleResponse_failure_message_witness :
    notFound404.ok = false ∧
    handleResponse notFound404
      = .error (.error "HTTP error! status: 404, message: not found") :=
  ⟨rfl, (handleResponse_failure_message notFound404 rfl).2.1 _ rfl rfl⟩

/-- C1 (counterexample): with a body that does not parse, the failure message is the
fallback text and not the status phrase; with the body `{message: ""}`, where the field
is present, the failure message is the status phrase and not the field. -/
theorem handleResponse_message_counterexample :
    (unparseable500.ok = false ∧
      handleResponse unparseable500
        = .error (.error "HTTP error! status: 500, message: Erro desconhecido da API") ∧
      handleResponse unparseable500
        ≠ .error (.error "HTTP error! status: 500, message: Internal Server Error")) ∧
    (emptyMessage500.ok = false ∧
      field (.obj [("message", .str "")]) "message" = .str "" ∧
      handleResponse emptyMessage500
        = .error (.error "HTTP error! status: 500, message: Internal Server Error") ∧
      handleResponse emptyMessage500
        ≠ .error (.error "HTTP error! status: 500, message: ")) := by
  refine ⟨⟨rfl, rfl, ?_⟩, rfl, rfl, rfl, ?_⟩
  · intro h
    have h1 : JsError.error "HTTP error! status: 500, message: Erro desconhecido da API"
        = JsError.error "HTTP error! status: 500, message: Internal Server Error" :=
      Except.error.inj h
    exact absurd h1 (by decide)
  · intro h
    have h1 : JsError.error "HTTP error! status: 500, message: Internal Server Error"
        = JsError.error "HTTP error! status: 500, message: " :=
      Except.error.inj h
    exact absurd h1 (by decide)

/-- C2 (failing input): the non-success response whose body is the JSON text `null` makes
`handleResponse` fail with the `TypeError` of reading `message` from `null`, which carries
neither the status nor the fallback message, in place of the HTTP error. -/
theorem handleResponse_null_body_escapes :
    nullBody500.ok = false ∧
    handleResponse nullBody500
      = .error (.typeError "Cannot read properties of null (reading 'message')") ∧
    ∀ text, handleResponse nullBody500 ≠ .error (.error text) := by
  refine ⟨rfl, rfl, ?_⟩
  intro text h
  have h1 : JsError.typeError "Cannot read properties of null (reading 'message')"
      = JsError.error text := Except.error.inj h
  exact JsError.noConfusion h1


/-! ## The services -/

theorem studentService_getAll_run (env : Env) (s : App) :
    studentService.getAll env s =
      (env.fetch studentService.getAllRequest >>= handleResponse,
       { s with requests := s.requests ++ [studentService.getAllRequest] }) := by
  simp only [studentService.getAll, Act.bind_run, httpFetch_run, Act.lift_run]
  cases env.fetch studentService.getAllRequest <;> rfl

theorem teacherService_getAll_run (env : Env) (s : App) :
    teacherService.getAll env s =
      (env.fetch teacherService.getAllRequest >>= handleResponse,
       { s with requests := s.requests ++ [teacherService.getAllRequest] }) := by
  simp only [teacherService.getAll, Act.bind_run, httpFetch_run, Act.lift_run]
  cases env.fetch teacherService.getAllRequest <;> rfl

theorem subjectService_getAll_run (env : Env) (s : App) :
    subjectService.getAll env s =
      (env.fetch subjectService.getAllRequest >>= handleResponse,
       { s with requests := s.requests ++ [subjectService.getAllRequest] }) := by
  simp only [subjectService.getAll, Act.bind_run, httpFetch_run, Act.lift_run]
  cases env.fetch subjectService.getAllRequest <;> rfl

theorem studentService_delete_result (env : Env) (id : JsValue) (s : App) (r : Response)
    (h : env.fetch (studentService.deleteRequest id) = .ok r) :
    (studentService.delete env id s).1 =
      if r.ok then .ok .null
      else .error (.error ("HTTP error! status: " ++ toString r.status)) := by
  simp only [studentService.delete, Act.bind_run, httpFetch_run, h]
  cases hok : r.ok <;> simp

theorem teacherService_delete_result (env : Env) (id : JsValue) (s : App) (r : Response)
    (h : env.fetch (teacherService.deleteRequest id) = .ok r) :
    (teacherService.delete env id s).1 =
      if r.ok then .ok .null
      else .error (.error ("HTTP error! status: " ++ toString r.status)) := by
  simp only [teacherService.delete, Act.bind_run, httpFetch_run, h]
  cases hok : r.ok <;> simp

theorem studentService_removeSubject_result (env : Env) (studentId subjectId : JsValue)
    (s : App) (r : Response)
    (h : env.fetch (studentService.removeSubjectRequest studentId subjectId) = .ok r) :
    (studentService.removeSubject env studentId subjectId s).1 =
      if r.ok then .ok .null
      else .error (.error ("HTTP error! status: " ++ toString r.status)) := by
  simp only [studentService.removeSubject, Act.bind_run, httpFetch_run, h]
  cases hok : r.ok <;> simp

/-- C3: whatever the response `r` to the DELETE request is, `studentService.delete`,
`teacherService.delete` and `studentService.removeSubject` return `null` exactly when
`r.ok` holds (the status is in 200..299), and for a non-success status they fail with the
`Error` whose text is `HTTP error! status: <status>`.  The outcome of `response.json()`
is a field of `r` that the result does not mention: the body is never read, and a
response without a body is a success. -/
theorem delete_result_from_status_only (env : Env) (s : App) (r : Response) :
    (∀ id, env.fetch (studentService.deleteRequest id) = .ok r →
      ((studentService.delete env id s).1 = .ok .null ↔ r.ok = true) ∧
      (r.ok = false → (studentService.delete env id s).1
        = .error (.error ("HTTP error! status: " ++ toString r.status)))) ∧
    (∀ id, env.fetch (teacherService.deleteRequest id) = .ok r →
      ((teacherService.delete env id s).1 = .ok .null ↔ r.ok = true) ∧
      (r.ok = false → (teacherService.delete env id s).1
        = .error (.error ("HTTP error! status: " ++ toString r.status)))) ∧
    (∀ studentId subjectId,
      env.fetch (studentService.removeSubjectRequest studentId subjectId) = .ok r →
      ((studentService.removeSubject env studentId subjectId s).1 = .ok .null ↔ r.ok = true) ∧
      (r.ok = false → (studentService.removeSubject env studentId subjectId s).1
        = .error (.error ("HTTP error! status: " ++ toString r.status)))) := by
  refine ⟨?_, ?_, ?_⟩
  · intro id h
    rw [studentService_delete_result env id s r h]
    cases hok : r.ok <;> simp
  · intro id h
    rw [teacherService_delete_result env id s r h]
    cases hok : r.ok <;> simp
  · intro studentId subjectId h
    rw [studentService_removeSubject_result env studentId subjectId s r h]
    cases hok : r.ok <;> simp

/-- C3 (witness): a 204 response, whose body does not
parse, makes `studentService.delete` return `null`. -/
theorem delete_result_from_status_only_witness :
    (envAnswering noContent204).fetch (studentService.deleteRequest (.num 7))
      = .ok noContent204 ∧
    noContent204.json = .error (.syntaxError "Unexpected end of JSON input") ∧
    (studentService.delete (envAnswering noContent204) (.num 7) {}).1 = .ok .null :=
  ⟨rfl, rfl,
    (((delete_result_from_status_only (envAnswering noContent204) {} noContent204).1
      (.num 7) rfl).1).2 rfl⟩

/-! ## Refetch -/

theorem fetchStudentsGlobal_run (env : Env) (s : App) :
    fetchStudentsGlobal env s =
      (.ok (), { s with
        students := storedListing (env.fetch studentService.getAllRequest >>= handleResponse)
        requests := s.requests ++ [studentService.getAllRequest] }) := by
  simp only [fetchStudentsGlobal, Act.tryCatch_run, Act.bind_run, studentService_getAll_run,
    Act.update_run]
  cases env.fetch studentService.getAllRequest >>= handleResponse <;> rfl

theorem fetchTeachersGlobal_run (env : Env) (s : App) :
    fetchTeachersGlobal env s =
      (.ok (), { s with
        teachers := storedListing (env.fetch teacherService.getAllRequest >>= handleResponse)
        requests := s.requests ++ [teacherService.getAllRequest] }) := by
  simp only [fetchTeachersGlobal, Act.tryCatch_run, Act.bind_run, teacherService_getAll_run,
    Act.update_run]
  cases env.fetch teacherService.getAllRequest >>= handleResponse <;> rfl

theorem fetchSubjectsGlobal_run (env : Env) (s : App) :
    fetchSubjectsGlobal env s =
      (.ok (), { s with
        subjects := storedListing (env.fetch subjectService.getAllRequest >>= handleResponse)
        requests := s.requests ++ [subjectService.getAllRequest] }) := by
  simp only [fetchSubjectsGlobal, Act.tryCatch_run, Act.bind_run, subjectService_getAll_run,
    Act.update_run]
  cases env.fetch subjectService.getAllRequest >>= handleResponse <;> rfl

/-- The three ways `getAll` fails: the transport fails, the status is not a success
status, or the body of a success response does not parse. -/
theorem getAll_failure_kinds (env : Env) (s : App) :
    (∀ e, env.fetch studentService.getAllRequest = .error e →
      (studentService.getAll env s).1 = .error e) ∧
    (∀ r, env.fetch studentService.getAllRequest = .ok r → r.ok = false →
      ∃ e, (studentService.getAll env s).1 = .error e) ∧
    (∀ r e, env.fetch studentService.getAllRequest = .ok r → r.ok = true →
      r.json = .error e → (studentService.getAll env s).1 = .error e) := by
  refine ⟨?_, ?_, ?_⟩
  · intro e h
    rw [studentService_getAll_run, h]; rfl
  · intro r h hok
    rw [studentService_getAll_run, h]
    exact handleResponse_fails r hok
  · intro r e h hok hjson
    rw [studentService_getAll_run, h]
    show handleResponse r = _
    rw [handleResponse_of_ok r hok, hjson]

/-- C4: for every prior state and every array `items` that a successful `getAll` returns,
the collection after `fetchStudentsGlobal`, `fetchTeachersGlobal` or `fetchSubjectsGlobal`
is `items` itself: the same elements in the same order, with nothing of the prior
content. -/
theorem refetch_replaces_collection (env : Env) (s : App) (items : List JsValue) :
    ((studentService.getAll env s).1 = .ok (.arr items) →
      (fetchStudentsGlobal env s).2.students = items) ∧
    ((teacherService.getAll env s).1 = .ok (.arr items) →
      (fetchTeachersGlobal env s).2.teachers = items) ∧
    ((subjectService.getAll env s).1 = .ok (.arr items) →
      (fetchSubjectsGlobal env s).2.subjects = items) := by
  refine ⟨?_, ?_, ?_⟩
  · intro h
    rw [studentService_getAll_run] at h
    simp only at h
    rw [fetchStudentsGlobal_run]
    simp only [h, storedListing, arrayOrEmpty]
  · intro h
    rw [teacherService_getAll_run] at h
    simp only at h
    rw [fetchTeachersGlobal_run]
    simp only [h, storedListing, arrayOrEmpty]
  · intro h
    rw [subjectService_getAll_run] at h
    simp only at h
    rw [fetchSubjectsGlobal_run]
    simp only [h, storedListing, arrayOrEmpty]

/-- C4 (witness): a stale students collection is replaced by
the one record the server lists. -/
theorem refetch_replaces_collection_witness :
    staleApp.students = [.obj [("id", .num 9)]] ∧
    (studentService.getAll (envAnswering listing200) staleApp).1
      = .ok (.arr [.obj [("id", .num 1), ("name", .str "Ana")]]) ∧
    (fetchStudentsGlobal (envAnswering listing200) staleApp).2.students
      = [.obj [("id", .num 1), ("name", .str "Ana")]] :=
  ⟨rfl, rfl, (refetch_replaces_collection (envAnswering listing200) staleApp _).1 rfl⟩

/-- C5: for every prior state and every failure `e` of `getAll` (a transport failure, a
non-success status or a body that does not parse, see `getAll_failure_kinds`), the
collection after the refetch is the empty sequence and the refetch itself returns
without throwing. -/
theorem refetch_failure_gives_empty (env : Env) (s : App) (e : JsError) :
    ((studentService.getAll env s).1 = .error e →
      (fetchStudentsGlobal env s).2.students = [] ∧ (fetchStudentsGlobal env s).1 = .ok ()) ∧
    ((teacherService.getAll env s).1 = .error e →
      (fetchTeachersGlobal env s).2.teachers = [] ∧ (fetchTeachersGlobal env s).1 = .ok ()) ∧
    ((subjectService.getAll env s).1 = .error e →
      (fetchSubjectsGlobal env s).2.subjects = [] ∧ (fetchSubjectsGlobal env s).1 = .ok ()) := by
  refine ⟨?_, ?_, ?_⟩
  · intro h
    rw [studentService_getAll_run] at h
    simp only at h
    rw [fetchStudentsGlobal_run]
    simp only [h, storedListing, and_self]
  · intro h
    rw [teacherService_getAll_run] at h
    simp only at h
    rw [fetchTeachersGlobal_run]
    simp only [h, storedListing, and_self]
  · intro h
    rw [subjectService_getAll_run] at h
    simp only at h
    rw [fetchSubjectsGlobal_run]
    simp only [h, storedListing, and_self]

/-- C5 (witness): with the network down, a stale students
collection becomes empty and the refetch returns. -/
theorem refetch_failure_gives_empty_witness :
    staleApp.students = [.obj [("id", .num 9)]] ∧
    (studentService.getAll envOffline staleApp).1 = .error (.typeError "Failed to fetch") ∧
    (fetchStudentsGlobal envOffline staleApp).2.students = [] ∧
    (fetchStudentsGlobal envOffline staleApp).1 = .ok () :=
  ⟨rfl, rfl, (refetch_failure_gives_empty envOffline staleApp _).1 rfl⟩

/-- C6: refetch is idempotent.  For every starting state and every answer of the server to
the listing request, running a refetch twice in a row leaves the collection that running
it once leaves. -/
theorem refetch_idempotent (env : Env) (s : App) :
    (fetchStudentsGlobal env (fetchStudentsGlobal env s).2).2.students
      = (fetchStudentsGlobal env s).2.students ∧
    (fetchTeachersGlobal env (fetchTeachersGlobal env s).2).2.teachers
      = (fetchTeachersGlobal env s).2.teachers ∧
    (fetchSubjectsGlobal env (fetchSubjectsGlobal env s).2).2.subjects
      = (fetchSubjectsGlobal env s).2.subjects := by
  simp only [fetchStudentsGlobal_run, fetchTeachersGlobal_run, fetchSubjectsGlobal_run,
    and_self]

theorem mountEffect_run (env : Env) (s : App) :
    mountEffect env s =
      (.ok (), { s with
        students := storedListing (env.fetch studentService.getAllRequest >>= handleResponse)
        teachers := storedListing (env.fetch teacherService.getAllRequest >>= handleResponse)
        subjects := storedListing (env.fetch subjectService.getAllRequest >>= handleResponse)
        requests := s.requests ++ [studentService.getAllRequest,
          teacherService.getAllRequest, subjectService.getAllRequest] }) := by
  simp [mountEffect, fetchStudentsGlobal_run, fetchTeachersGlobal_run,
    fetchSubjectsGlobal_run]

/-- C7: at startup, whatever the three listing requests meet, the effect returns without
throwing, it issues exactly the three listing requests, once each, and each collection
ends as its own refetch alone would leave it; so two platforms that agree on the answer
to one listing request give the same final value of that collection, whatever they do
with the other two requests and whatever the prior state. -/
theorem mountEffect_collections_independent (env : Env) (s : App) :
    (mountEffect env s).1 = .ok () ∧
    (mountEffect env s).2.requests
      = s.requests ++ [studentService.getAllRequest, teacherService.getAllRequest,
          subjectService.getAllRequest] ∧
    (mountEffect env s).2.students = (fetchStudentsGlobal env s).2.students ∧
    (mountEffect env s).2.teachers = (fetchTeachersGlobal env s).2.teachers ∧
    (mountEffect env s).2.subjects = (fetchSubjectsGlobal env s).2.subjects ∧
    (∀ (env2 : Env) (s2 : App),
      env2.fetch studentService.getAllRequest = env.fetch studentService.getAllRequest →
      (mountEffect env2 s2).2.students = (mountEffect env s).2.students) ∧
    (∀ (env2 : Env) (s2 : App),
      env2.fetch teacherService.getAllRequest = env.fetch teacherService.getAllRequest →
      (mountEffect env2 s2).2.teachers = (mountEffect env s).2.teachers) ∧
    (∀ (env2 : Env) (s2 : App),
      env2.fetch subjectService.getAllRequest = env.fetch subjectService.getAllRequest →
      (mountEffect env2 s2).2.subjects = (mountEffect env s).2.subjects) := by
  simp only [mountEffect_run, fetchStudentsGlobal_run, fetchTeachersGlobal_run,
    fetchSubjectsGlobal_run, true_and]
  refine ⟨?_, ?_, ?_⟩
  · intro env2 s2 h
    rw [h]
  · intro env2 s2 h
    rw [h]
  · intro env2 s2 h
    rw [h]

/-- C7 (witness): when only the students listing is
answered, the students collection ends as it does when every listing is answered, while
teachers and subjects end empty. -/
theorem mountEffect_collections_independent_witness :
    envStudentsOnly.fetch studentService.getAllRequest
      = (envAnswering listing200).fetch studentService.getAllRequest ∧
    (mountEffect envStudentsOnly staleApp).2.students
      = (mountEffect (envAnswering listing200) {}).2.students ∧
    (mountEffect envStudentsOnly staleApp).2.students
      = [.obj [("id", .num 1), ("name", .str "Ana")]] ∧
    (mountEffect envStudentsOnly staleApp).2.teachers = [] ∧
    (mountEffect envStudentsOnly staleApp).2.subjects = [] :=
  ⟨rfl,
    (mountEffect_collections_independent (envAnswering listing200) {}).2.2.2.2.2.1
      envStudentsOnly staleApp rfl,
    rfl, rfl, rfl⟩

/-- The order in which the three refetches complete does not matter for the collections:
run in the opposite order they leave the same three collections. -/
theorem mountEffect_order_irrelevant (env : Env) (s : App) :
    let t := (fetchStudentsGlobal env (fetchTeachersGlobal env
      (fetchSubjectsGlobal env s).2).2).2
    t.students = (mountEffect env s).2.students ∧
    t.teachers = (mountEffect env s).2.teachers ∧
    t.subjects = (mountEffect env s).2.subjects := by
  simp only [mountEffect_run, fetchStudentsGlobal_run, fetchTeachersGlobal_run,
    fetchSubjectsGlobal_run, and_self]

/-! ## The editors -/

theorem studentService_create_run (env : Env) (data : JsValue) (s : App) :
    studentService.create env data s =
      (env.fetch (studentService.createRequest data) >>= handleResponse,
       { s with requests := s.requests ++ [studentService.createRequest data] }) := by
  simp only [studentService.create, Act.bind_run, httpFetch_run, Act.lift_run]
  cases env.fetch (studentService.createRequest data) <;> rfl

theorem studentService_update_run (env : Env) (id data : JsValue) (s : App) :
    studentService.update env id data s =
      (env.fetch (studentService.updateRequest id data) >>= handleResponse,
       { s with requests := s.requests ++ [studentService.updateRequest id data] }) := by
  simp only [studentService.update, Act.bind_run, httpFetch_run, Act.lift_run]
  cases env.fetch (studentService.updateRequest id data) <;> rfl

theorem teacherService_create_run (env : Env) (data : JsValue) (s : App) :
    teacherService.create env data s =
      (env.fetch (teacherService.createRequest data) >>= handleResponse,
       { s with requests := s.requests ++ [teacherService.createRequest data] }) := by
  simp only [teacherService.create, Act.bind_run, httpFetch_run, Act.lift_run]
  cases env.fetch (teacherService.createRequest data) <;> rfl

theorem teacherService_update_run (env : Env) (id data : JsValue) (s : App) :
    teacherService.update env id data s =
      (env.fetch (teacherService.updateRequest id data) >>= handleResponse,
       { s with requests := s.requests ++ [teacherService.updateRequest id data] }) := by
  simp only [teacherService.update, Act.bind_run, httpFetch_run, Act.lift_run]
  cases env.fetch (teacherService.updateRequest id data) <;> rfl

theorem truthy_not_nullish (v : JsValue) (h : v.truthy = true) : v.isNullish = false := by
  cases v <;> simp_all [truthy, isNullish]

theorem handleUpdateStudentSubmit_requests (env : Env) (s : App) :
    (s.editingStudent.truthy = false ∧
      (handleUpdateStudentSubmit env s).2.requests = s.requests) ∨
    (s.editingStudent.truthy = true ∧
      ∃ e, subjectIdsOrEmpty (field s.editingStudent "subjects") = .error e ∧
      (handleUpdateStudentSubmit env s).2.requests = s.requests) ∨
    (s.editingStudent.truthy = true ∧
      ∃ ids, subjectIdsOrEmpty (field s.editingStudent "subjects") = .ok ids ∧
      ∃ rest, (rest = [] ∨ rest = [studentService.getAllRequest]) ∧
      (handleUpdateStudentSubmit env s).2.requests
        = s.requests ++ studentService.updateRequest (field s.editingStudent "id")
            (.obj [("enrollment", field s.editingStudent "enrollment"),
                   ("name", s.editStudentName),
                   ("current_year", parseInt s.editCurrentYear),
                   ("shift", s.editStudentShift),
                   ("subjects", ids)]) :: rest) := by
  cases ht : s.editingStudent.truthy
  · left
    simp only [handleUpdateStudentSubmit, Act.bind_run, Act.read_run, Act.update_run, ht,
      Bool.not_false, if_true, Act.pure_run, and_self]
  · have hn := truthy_not_nullish _ ht
    right
    simp only [handleUpdateStudentSubmit, Act.bind_run, Act.read_run, Act.update_run,
      Act.tryCatch_run, Act.lift_run, ht,
      getProp_of_not_nullish _ _ hn, Bool.not_true, Bool.false_eq_true, if_false,
      Act.pure_run, studentService_update_run, Act.detached_run, fetchStudentsGlobal_run]
    cases hs : subjectIdsOrEmpty (field s.editingStudent "subjects") with
    | error e => left; exact ⟨trivial, e, rfl, rfl⟩
    | ok ids =>
      right
      refine ⟨trivial, ids, rfl, ?_⟩
      simp only []
      cases env.fetch (studentService.updateRequest (field s.editingStudent "id")
            (.obj [("enrollment", field s.editingStudent "enrollment"),
                   ("name", s.editStudentName),
                   ("current_year", parseInt s.editCurrentYear),
                   ("shift", s.editStudentShift),
                   ("subjects", ids)])) >>= handleResponse with
      | error e => exact ⟨[], Or.inl rfl, rfl⟩
      | ok updated =>
        simp only []
        cases getProp updated "name" with
        | error e => exact ⟨[], Or.inl rfl, rfl⟩
        | ok name => exact ⟨[studentService.getAllRequest], Or.inr rfl, by simp⟩

theorem handleUpdateTeacherSubmit_requests (env : Env) (s : App) :
    (s.editingTeacher.truthy = false ∧
      (handleUpdateTeacherSubmit env s).2.requests = s.requests) ∨
    (s.editingTeacher.truthy = true ∧
      ∃ rest, (rest = [] ∨ rest = [teacherService.getAllRequest]) ∧
      (handleUpdateTeacherSubmit env s).2.requests
        = s.requests ++ teacherService.updateRequest (field s.editingTeacher "id")
            (.obj [("registry", field s.editingTeacher "registry"),
                   ("name", s.editTeacherName),
                   ("department", s.editTeacherDepartment)]) :: rest) := by
  cases ht : s.editingTeacher.truthy
  · left
    simp only [handleUpdateTeacherSubmit, Act.bind_run, Act.read_run, Act.update_run, ht,
      Bool.not_false, if_true, Act.pure_run, and_self]
  · have hn := truthy_not_nullish _ ht
    right
    refine ⟨rfl, ?_⟩
    simp only [handleUpdateTeacherSubmit, Act.bind_run, Act.read_run, Act.update_run,
      Act.tryCatch_run, Act.lift_run, ht,
      getProp_of_not_nullish _ _ hn, Bool.not_true, Bool.false_eq_true, if_false,
      Act.pure_run, teacherService_update_run, Act.detached_run, fetchTeachersGlobal_run]
    cases env.fetch (teacherService.updateRequest (field s.editingTeacher "id")
          (.obj [("registry", field s.editingTeacher "registry"),
                 ("name", s.editTeacherName),
                 ("department", s.editTeacherDepartment)])) >>= handleResponse with
    | error e => exact ⟨[], Or.inl rfl, rfl⟩
    | ok updated =>
      simp only []
      cases getProp updated "name" with
      | error e => exact ⟨[], Or.inl rfl, rfl⟩
      | ok name => exact ⟨[teacherService.getAllRequest], Or.inr rfl, by simp⟩

/-- C8: every PUT request that `handleUpdateStudentSubmit` issues is addressed to
`/students/<id>` with the id of the student being edited and carries, in its payload, an
`enrollment` equal to that student's enrollment, whatever the draft fields hold; and such
a request is issued whenever a student is being edited and its `subjects` is absent or an
array of records.  Likewise every PUT request of `handleUpdateTeacherSubmit` is addressed
to `/teachers/<id>` and carries the edited teacher's `registry`, and it is issued whenever
a teacher is being edited. -/
theorem update_request_echoes_code (env : Env) (s : App) :
    (∀ req ∈ (handleUpdateStudentSubmit env s).2.requests.drop s.requests.length,
      req.method = "PUT" →
        req.url = API_BASE_URL ++ "/students/" ++ (field s.editingStudent "id").toJsString ∧
        ∃ payload, req.body = some payload ∧
          field payload "enrollment" = field s.editingStudent "enrollment") ∧
    (s.editingStudent.truthy = true →
      ∀ ids, subjectIdsOrEmpty (field s.editingStudent "subjects") = .ok ids →
      ∃ rest, (handleUpdateStudentSubmit env s).2.requests
        = s.requests ++ studentService.updateRequest (field s.editingStudent "id")
            (.obj [("enrollment", field s.editingStudent "enrollment"),
                   ("name", s.editStudentName),
                   ("current_year", parseInt s.editCurrentYear),
                   ("shift", s.editStudentShift),
                   ("subjects", ids)]) :: rest) ∧
    (∀ req ∈ (handleUpdateTeacherSubmit env s).2.requests.drop s.requests.length,
      req.method = "PUT" →
        req.url = API_BASE_URL ++ "/teachers/" ++ (field s.editingTeacher "id").toJsString ∧
        ∃ payload, req.body = some payload ∧
          field payload "registry" = field s.editingTeacher "registry") ∧
    (s.editingTeacher.truthy = true →
      ∃ rest, (handleUpdateTeacherSubmit env s).2.requests
        = s.requests ++ teacherService.updateRequest (field s.editingTeacher "id")
            (.obj [("registry", field s.editingTeacher "registry"),
                   ("name", s.editTeacherName),
                   ("department", s.editTeacherDepartment)]) :: rest) := by
  refine ⟨?_, ?_, ?_, ?_⟩
  · intro req hreq hput
    rcases handleUpdateStudentSubmit_requests env s with
      ⟨_, h⟩ | ⟨_, _, _, h⟩ | ⟨_, ids, _, rest, hrest, h⟩
    · rw [h, List.drop_length] at hreq
      cases hreq
    · rw [h, List.drop_length] at hreq
      cases hreq
    · rw [h, List.drop_left] at hreq
      rcases List.mem_cons.mp hreq with rfl | hmem
      · exact ⟨rfl, _, rfl, rfl⟩
      · rcases hrest with rfl | rfl
        · cases hmem
        · rcases List.mem_singleton.mp hmem with rfl
          exact absurd hput (by decide)
  · intro ht ids hids
    rcases handleUpdateStudentSubmit_requests env s with
      ⟨hf, _⟩ | ⟨_, e, he, _⟩ | ⟨_, ids2, hids2, rest, _, h⟩
    · rw [ht] at hf
      cases hf
    · rw [hids] at he
      cases he
    · rw [hids] at hids2
      cases hids2
      exact ⟨rest, h⟩
  · intro req hreq hput
    rcases handleUpdateTeacherSubmit_requests env s with ⟨_, h⟩ | ⟨_, rest, hrest, h⟩
    · rw [h, List.drop_length] at hreq
      cases hreq
    · rw [h, List.drop_left] at hreq
      rcases List.mem_cons.mp hreq with rfl | hmem
      · exact ⟨rfl, _, rfl, rfl⟩
      · rcases hrest with rfl | rfl
        · cases hmem
        · rcases List.mem_singleton.mp hmem with rfl
          exact absurd hput (by decide)
  · intro ht
    rcases handleUpdateTeacherSubmit_requests env s with ⟨hf, _⟩ | ⟨_, rest, _, h⟩
    · rw [ht] at hf
      cases hf
    · exact ⟨rest, h⟩

/-- C8 (witness): editing the student with id 3 and enrollment
`2024001` with every draft field changed sends the PUT to `/students/3` with the
enrollment `2024001`. -/
theorem update_request_echoes_code_witness :
    editingStudentApp.editingStudent.truthy = true ∧
    subjectIdsOrEmpty (field editingStudentApp.editingStudent "subjects")
      = .ok (.arr [.obj [("id", .num 12)]]) ∧
    ∃ rest, (handleUpdateStudentSubmit envOffline editingStudentApp).2.requests
      = [] ++ studentService.updateRequest (.num 3)
          (.obj [("enrollment", .str "2024001"), ("name", .str "Ana Maria"),
                 ("current_year", .num 2), ("shift", .str "N"),
                 ("subjects", .arr [.obj [("id", .num 12)]])]) :: rest :=
  ⟨rfl, rfl, (update_request_echoes_code envOffline editingStudentApp).2.1 rfl _ rfl⟩

/-! ## Student creation -/

theorem filterE_isFirstYear (l : List JsValue) (h : ∀ sub ∈ l, sub.isNullish = false) :
    filterE isFirstYear l = .ok (l.filter fun sub => (field sub "year").strictEqNum 1) := by
  induction l with
  | nil => rfl
  | cons x rest ih =>
    have hx : x.isNullish = false := h x (List.mem_cons_self _ _)
    have hrest : ∀ sub ∈ rest, sub.isNullish = false :=
      fun sub hsub => h sub (List.mem_cons_of_mem _ hsub)
    simp only [filterE, isFirstYear, getProp_of_not_nullish x "year" hx, ih hrest,
      List.filter_cons]

theorem mapE_idOnly (l : List JsValue) (h : ∀ sub ∈ l, sub.isNullish = false) :
    mapE idOnly l = .ok (l.map fun sub => JsValue.obj [("id", field sub "id")]) := by
  induction l with
  | nil => rfl
  | cons x rest ih =>
    have hx : x.isNullish = false := h x (List.mem_cons_self _ _)
    have hrest : ∀ sub ∈ rest, sub.isNullish = false :=
      fun sub hsub => h sub (List.mem_cons_of_mem _ hsub)
    simp only [mapE, idOnly, getProp_of_not_nullish x "id" hx, ih hrest, List.map_cons]

theorem handleStudentSubmit_requests (env : Env) (s : App)
    (pool : List JsValue) (selected : List JsValue)
    (hpool : filterE isFirstYear s.subjects = .ok pool)
    (hsel : mapE idOnly ((env.sortRandom pool).take 5) = .ok selected) :
    ∃ rest, (handleStudentSubmit env s).2.requests
      = s.requests ++ studentService.createRequest
          (.obj [("name", .str s.studentName),
                 ("current_year", parseInt (.str s.currentYear)),
                 ("shift", .str s.studentShift),
                 ("subjects", .arr selected)]) :: rest := by
  simp only [handleStudentSubmit, Act.bind_run, Act.read_run, Act.update_run,
    Act.tryCatch_run, Act.lift_run, hpool, hsel]
  generalize hout : env.fetch (studentService.createRequest
          (.obj [("name", .str s.studentName),
                 ("current_year", parseInt (.str s.currentYear)),
                 ("shift", .str s.studentShift),
                 ("subjects", .arr selected)])) >>= handleResponse = outcome
  split_ifs <;>
  · simp only [Act.bind_run, Act.update_run, Act.tryCatch_run, studentService_create_run,
      Act.lift_run, Act.detached_run, fetchStudentsGlobal_run, Act.pure_run, hout]
    cases outcome with
    | error e => exact ⟨[], rfl⟩
    | ok newStudent =>
      simp only []
      cases getProp newStudent "name" with
      | error e => exact ⟨[], rfl⟩
      | ok name =>
        simp only []
        cases getProp newStudent "enrollment" with
        | error e => exact ⟨[], rfl⟩
        | ok enrollment => exact ⟨[studentService.getAllRequest], by simp⟩

theorem field_id_of_idOnly (sub : JsValue) :
    field (JsValue.obj [("id", field sub "id")]) "id" = field sub "id" := by
  simp [field, lookup]

/-- C9: for every subjects collection (of records: no element is `null` or `undefined`)
and every outcome `shuffled` of the random sort that is a permutation of the year-1 pool,
`handleStudentSubmit` issues the create request, whatever the size `n` of the pool, and
the `subjects` of its payload is the `{id}` projection of the first five entries of
`shuffled`: it has `min 5 n` entries, every entry is the `{id}` of a year-1 subject of
the collection, and it has no duplicate id when the ids of the collection are distinct. -/
theorem create_selects_first_year_subjects (env : Env) (s : App)
    (hsubj : ∀ sub ∈ s.subjects, sub.isNullish = false)
    (hperm : (env.sortRandom (firstYearPool s.subjects)).Perm (firstYearPool s.subjects)) :
    ∃ (shuffled selected : List JsValue) (rest : List Request),
      shuffled.Perm (firstYearPool s.subjects) ∧
      selected = (shuffled.take 5).map (fun sub => JsValue.obj [("id", field sub "id")]) ∧
      (handleStudentSubmit env s).2.requests
        = s.requests ++ studentService.createRequest
            (.obj [("name", .str s.studentName),
                   ("current_year", parseInt (.str s.currentYear)),
                   ("shift", .str s.studentShift),
                   ("subjects", .arr selected)]) :: rest ∧
      selected.length = min 5 (firstYearPool s.subjects).length ∧
      (∀ entry ∈ selected, ∃ sub ∈ s.subjects,
        (field sub "year").strictEqNum 1 = true ∧ entry = .obj [("id", field sub "id")]) ∧
      ((s.subjects.map fun sub => field sub "id").Nodup →
        (selected.map fun entry => field entry "id").Nodup) := by
  have hpool := filterE_isFirstYear s.subjects hsubj
  have hmem : ∀ sub ∈ (env.sortRandom (firstYearPool s.subjects)).take 5,
      sub ∈ s.subjects ∧ (field sub "year").strictEqNum 1 = true := by
    intro sub hsub
    have h1 : sub ∈ firstYearPool s.subjects := hperm.subset (List.mem_of_mem_take hsub)
    simpa [firstYearPool, List.mem_filter] using h1
  have hsel := mapE_idOnly ((env.sortRandom (firstYearPool s.subjects)).take 5)
    (fun sub hsub => hsubj sub (hmem sub hsub).1)
  obtain ⟨rest, hreq⟩ := handleStudentSubmit_requests env s _ _ hpool hsel
  refine ⟨env.sortRandom (firstYearPool s.subjects), _, rest, hperm, rfl, hreq, ?_, ?_, ?_⟩
  · rw [List.length_map, List.length_take, hperm.length_eq]
  · intro entry hentry
    obtain ⟨sub, hsub, rfl⟩ := List.mem_map.mp hentry
    exact ⟨sub, (hmem sub hsub).1, (hmem sub hsub).2, rfl⟩
  · intro hnodup
    rw [List.map_map]
    have hfun : ((fun entry => field entry "id") ∘
        fun sub => JsValue.obj [("id", field sub "id")]) = fun sub => field sub "id" := by
      funext sub
      exact field_id_of_idOnly sub
    rw [hfun]
    have h1 : ((firstYearPool s.subjects).map fun sub => field sub "id").Nodup :=
      hnodup.sublist (List.Sublist.map _ (List.filter_sublist _))
    have h2 : ((env.sortRandom (firstYearPool s.subjects)).map
        fun sub => field sub "id").Nodup :=
      (hperm.map _).nodup_iff.mpr h1
    exact h2.sublist (List.Sublist.map _ (List.take_sublist _ _))

/-- C9 (witness): with three year-1 subjects among
four and a sort that reverses, the create request carries the three ids in reverse
order. -/
theorem create_selects_first_year_subjects_witness :
    (∀ sub ∈ threeFirstYearApp.subjects, sub.isNullish = false) ∧
    (envCreating.sortRandom (firstYearPool threeFirstYearApp.subjects)).Perm
      (firstYearPool threeFirstYearApp.subjects) ∧
    (firstYearPool threeFirstYearApp.subjects).length = 3 ∧
    (handleStudentSubmit envCreating threeFirstYearApp).2.requests
      = [studentService.createRequest
          (.obj [("name", .str "Ana"), ("current_year", .num 1), ("shift", .str "M"),
                 ("subjects", .arr [.obj [("id", .num 4)], .obj [("id", .num 3)],
                    .obj [("id", .num 1)]])]),
         studentService.getAllRequest] ∧
    ∃ (shuffled selected : List JsValue) (rest : List Request),
      shuffled.Perm (firstYearPool threeFirstYearApp.subjects) ∧
      selected = (shuffled.take 5).map (fun sub => JsValue.obj [("id", field sub "id")]) ∧
      (handleStudentSubmit envCreating threeFirstYearApp).2.requests
        = threeFirstYearApp.requests ++ studentService.createRequest
            (.obj [("name", .str threeFirstYearApp.studentName),
                   ("current_year", parseInt (.str threeFirstYearApp.currentYear)),
                   ("shift", .str threeFirstYearApp.studentShift),
                   ("subjects", .arr selected)]) :: rest ∧
      selected.length = min 5 (firstYearPool threeFirstYearApp.subjects).length ∧
      (∀ entry ∈ selected, ∃ sub ∈ threeFirstYearApp.subjects,
        (field sub "year").strictEqNum 1 = true ∧ entry = .obj [("id", field sub "id")]) ∧
      ((threeFirstYearApp.subjects.map fun sub => field sub "id").Nodup →
        (selected.map fun entry => field entry "id").Nodup) :=
  have h1 : ∀ sub ∈ threeFirstYearApp.subjects, sub.isNullish = false := by
    intro sub hsub
    simp only [threeFirstYearApp, List.mem_cons, List.mem_singleton, List.not_mem_nil,
      or_false] at hsub
    rcases hsub with rfl | rfl | rfl | rfl <;> rfl
  have h2 : (envCreating.sortRandom (firstYearPool threeFirstYearApp.subjects)).Perm
      (firstYearPool threeFirstYearApp.subjects) := List.reverse_perm _
  ⟨h1, h2, rfl, rfl, create_selects_first_year_subjects envCreating threeFirstYearApp h1 h2⟩

/-- C10 (failing input): a creation that succeeds while three, or no, year-1 subjects
exist ends with the success message and the type `success`; the warning that
`handleStudentSubmit` sets before the request is overwritten when the response arrives
and is not the message shown when the workflow has finished. -/
theorem create_warning_overwritten :
    ((firstYearPool threeFirstYearApp.subjects).length = 3 ∧
      (handleStudentSubmit envCreating threeFirstYearApp).1 = .ok () ∧
      (handleStudentSubmit envCreating threeFirstYearApp).2.studentMessage
        = "Aluno \"Ana\" cadastrado com sucesso! Matrícula: 2024010" ∧
      (handleStudentSubmit envCreating threeFirstYearApp).2.studentMessageType = "success" ∧
      (handleStudentSubmit envCreating threeFirstYearApp).2.studentMessage
        ≠ "Aviso: Não há 5 matérias suficientes do primeiro ano para associar.") ∧
    ((firstYearPool noFirstYearApp.subjects).length = 0 ∧
      (handleStudentSubmit envCreating noFirstYearApp).1 = .ok () ∧
      (handleStudentSubmit envCreating noFirstYearApp).2.studentMessage
        = "Aluno \"Ana\" cadastrado com sucesso! Matrícula: 2024010" ∧
      (handleStudentSubmit envCreating noFirstYearApp).2.studentMessageType = "success" ∧
      (handleStudentSubmit envCreating noFirstYearApp).2.studentMessage
        ≠ "Aviso: Nenhuma matéria do primeiro ano disponível para associação automática.") := by
  refine ⟨⟨rfl, rfl, rfl, rfl, ?_⟩, rfl, rfl, rfl, rfl, ?_⟩
  · have h : (handleStudentSubmit envCreating threeFirstYearApp).2.studentMessage
        = "Aluno \"Ana\" cadastrado com sucesso! Matrícula: 2024010" := rfl
    rw [h]
    decide
  · have h : (handleStudentSubmit envCreating noFirstYearApp).2.studentMessage
        = "Aluno \"Ana\" cadastrado com sucesso! Matrícula: 2024010" := rfl
    rw [h]
    decide

/-- Every successful creation ends with the success message: the message that
`handleStudentSubmit` leaves is built from the record the server returns, whatever the
number of year-1 subjects. -/
theorem handleStudentSubmit_success (env : Env) (s : App)
    (pool : List JsValue) (selected : List JsValue) (newStudent : JsValue)
    (hpool : filterE isFirstYear s.subjects = .ok pool)
    (hsel : mapE idOnly ((env.sortRandom pool).take 5) = .ok selected)
    (hout : env.fetch (studentService.createRequest
          (.obj [("name", .str s.studentName),
                 ("current_year", parseInt (.str s.currentYear)),
                 ("shift", .str s.studentShift),
                 ("subjects", .arr selected)])) >>= handleResponse = .ok newStudent)
    (hnn : newStudent.isNullish = false) :
    (handleStudentSubmit env s).1 = .ok () ∧
    (handleStudentSubmit env s).2.studentMessage
      = "Aluno \"" ++ (field newStudent "name").toJsString
          ++ "\" cadastrado com sucesso! Matrícula: "
          ++ (field newStudent "enrollment").toJsString ∧
    (handleStudentSubmit env s).2.studentMessageType = "success" ∧
    (handleStudentSubmit env s).2.studentName = "" ∧
    (handleStudentSubmit env s).2.currentYear = "" ∧
    (handleStudentSubmit env s).2.studentShift = "M" := by
  simp only [handleStudentSubmit, Act.bind_run, Act.read_run, Act.update_run,
    Act.tryCatch_run, Act.lift_run, hpool, hsel]
  split_ifs <;>
  simp only [Act.bind_run, Act.update_run, Act.tryCatch_run, studentService_create_run,
    Act.lift_run, Act.detached_run, fetchStudentsGlobal_run, Act.pure_run, hout,
    getProp_of_not_nullish _ _ hnn, and_self]

/-! ## Update that the server rejects -/

theorem handleUpdateStudentSubmit_failure (env : Env) (s : App) (ids : JsValue)
    (e : JsError) (ht : s.editingStudent.truthy = true)
    (hids : subjectIdsOrEmpty (field s.editingStudent "subjects") = .ok ids)
    (hout : env.fetch (studentService.updateRequest (field s.editingStudent "id")
          (.obj [("enrollment", field s.editingStudent "enrollment"),
                 ("name", s.editStudentName),
                 ("current_year", parseInt s.editCurrentYear),
                 ("shift", s.editStudentShift),
                 ("subjects", ids)])) >>= handleResponse = .error e) :
    handleUpdateStudentSubmit env s =
      (.ok (), { s with
        studentMessage := "Erro ao atualizar aluno: " ++ e.message
        studentMessageType := "error"
        requests := s.requests ++ [studentService.updateRequest (field s.editingStudent "id")
          (.obj [("enrollment", field s.editingStudent "enrollment"),
                 ("name", s.editStudentName),
                 ("current_year", parseInt s.editCurrentYear),
                 ("shift", s.editStudentShift),
                 ("subjects", ids)])] }) := by
  have hn := truthy_not_nullish _ ht
  simp only [handleUpdateStudentSubmit, Act.bind_run, Act.read_run, Act.update_run,
    Act.tryCatch_run, Act.lift_run, ht,
    getProp_of_not_nullish _ _ hn, Bool.not_true, Bool.false_eq_true, if_false,
    Act.pure_run, studentService_update_run, Act.detached_run, fetchStudentsGlobal_run,
    hids, hout]

theorem handleResponse_not_found (r : Response) (hstatus : r.status = 404)
    (hbody : r.json = .ok (.obj [("message", .str "not found")])) :
    handleResponse r = .error (.error "HTTP error! status: 404, message: not found") := by
  have hok : r.ok = false := by simp [Response.ok, hstatus]
  simp only [handleResponse, hok, hbody, hstatus, Bool.not_false, if_true]
  rfl

/-- C11 (amended): for every student being edited (its `subjects` absent or an array of
records, so that the update is sent), when the server answers the update with status 404
and the body `{message: "not found"}`, `handleUpdateStudentSubmit` leaves the editor in
edit mode (`editingStudent` unchanged), issues no request after the PUT (no refetch, the
students collection unchanged), and sets the message to exactly
`Erro ao atualizar aluno: HTTP error! status: 404, message: not found` with the type
`error`. -/
theorem update_not_found_keeps_edit_mode (env : Env) (s : App) (ids : JsValue)
    (r : Response) (ht : s.editingStudent.truthy = true)
    (hids : subjectIdsOrEmpty (field s.editingStudent "subjects") = .ok ids)
    (hfetch : env.fetch (studentService.updateRequest (field s.editingStudent "id")
          (.obj [("enrollment", field s.editingStudent "enrollment"),
                 ("name", s.editStudentName),
                 ("current_year", parseInt s.editCurrentYear),
                 ("shift", s.editStudentShift),
                 ("subjects", ids)])) = .ok r)
    (hstatus : r.status = 404)
    (hbody : r.json = .ok (.obj [("message", .str "not found")])) :
    (handleUpdateStudentSubmit env s).2.editingStudent = s.editingStudent ∧
    (handleUpdateStudentSubmit env s).2.requests
      = s.requests ++ [studentService.updateRequest (field s.editingStudent "id")
          (.obj [("enrollment", field s.editingStudent "enrollment"),
                 ("name", s.editStudentName),
                 ("current_year", parseInt s.editCurrentYear),
                 ("shift", s.editStudentShift),
                 ("subjects", ids)])] ∧
    (handleUpdateStudentSubmit env s).2.students = s.students ∧
    (handleUpdateStudentSubmit env s).2.studentMessage
      = "Erro ao atualizar aluno: HTTP error! status: 404, message: not found" ∧
    (handleUpdateStudentSubmit env s).2.studentMessageType = "error" := by
  have hout : env.fetch (studentService.updateRequest (field s.editingStudent "id")
          (.obj [("enrollment", field s.editingStudent "enrollment"),
                 ("name", s.editStudentName),
                 ("current_year", parseInt s.editCurrentYear),
                 ("shift", s.editStudentShift),
                 ("subjects", ids)])) >>= handleResponse
        = .error (.error "HTTP error! status: 404, message: not found") := by
    rw [hfetch]
    exact handleResponse_not_found r hstatus hbody
  rw [handleUpdateStudentSubmit_failure env s ids _ ht hids hout]
  exact ⟨rfl, rfl, rfl, rfl, rfl⟩

/-- C11 (witness): the student with id 3 is being edited and the server answers 404 with
`{message: "not found"}`. -/
theorem update_not_found_keeps_edit_mode_witness :
    editingStudentApp.editingStudent.truthy = true ∧
    notFound404.status = 404 ∧
    (handleUpdateStudentSubmit (envAnswering notFound404) editingStudentApp).2.editingStudent
      = editingStudentApp.editingStudent ∧
    (handleUpdateStudentSubmit (envAnswering notFound404) editingStudentApp).2.studentMessage
      = "Erro ao atualizar aluno: HTTP error! status: 404, message: not found" :=
  have h := update_not_found_keeps_edit_mode (envAnswering notFound404) editingStudentApp
    (.arr [.obj [("id", .num 12)]]) notFound404 rfl rfl rfl rfl rfl
  ⟨rfl, rfl, h.1, h.2.2.2.1⟩

/-- C11 (counterexample): at that input the message is not
`Erro ao atualizar aluno: not found`; the text of the HTTP error stands in between. -/
theorem update_not_found_message_counterexample :
    editingStudentApp.editingStudent.truthy = true ∧
    (envAnswering notFound404).fetch (studentService.updateRequest (.num 3)
        (.obj [("enrollment", .str "2024001"), ("name", .str "Ana Maria"),
               ("current_year", .num 2), ("shift", .str "N"),
               ("subjects", .arr [.obj [("id", .num 12)]])]))
      = .ok notFound404 ∧
    notFound404.status = 404 ∧
    (handleUpdateStudentSubmit (envAnswering notFound404) editingStudentApp).2.requests
      = [studentService.updateRequest (.num 3)
          (.obj [("enrollment", .str "2024001"), ("name", .str "Ana Maria"),
                 ("current_year", .num 2), ("shift", .str "N"),
                 ("subjects", .arr [.obj [("id", .num 12)]])])] ∧
    (handleUpdateStudentSubmit (envAnswering notFound404) editingStudentApp).2.studentMessage
      = "Erro ao atualizar aluno: HTTP error! status: 404, message: not found" ∧
    (handleUpdateStudentSubmit (envAnswering notFound404) editingStudentApp).2.studentMessage
      ≠ "Erro ao atualizar aluno: not found" := by
  refine ⟨rfl, rfl, rfl, rfl, rfl, ?_⟩
  have h : (handleUpdateStudentSubmit (envAnswering notFound404)
      editingStudentApp).2.studentMessage
      = "Erro ao atualizar aluno: HTTP error! status: 404, message: not found" := rfl
  rw [h]
  decide

/-! ## Declined deletion -/

/-- C12: for every id and name, when the user declines the confirmation prompt,
`handleDeleteTeacher` and `handleDeleteStudent` return with the state exactly as it was:
no request is logged (no DELETE, no refetch), and the collections, the messages, the
message types and the edit state are unchanged. -/
theorem declined_delete_changes_nothing (env : Env) (s : App) (id name : JsValue) :
    (env.confirm ("Tem certeza que deseja deletar o professor " ++ name.toJsString ++ "?")
        = false →
      handleDeleteTeacher env id name s = (.ok (), s)) ∧
    (env.confirm ("Tem certeza que deseja deletar o aluno " ++ name.toJsString ++ "?")
        = false →
      handleDeleteStudent env id name s = (.ok (), s)) := by
  refine ⟨?_, ?_⟩
  · intro h
    simp only [handleDeleteTeacher, h, Bool.false_eq_true, if_false, Act.pure_run]
  · intro h
    simp only [handleDeleteStudent, h, Bool.false_eq_true, if_false, Act.pure_run]

/-- C12 (witness): deleting the teacher with id 7 and name Silva, the user declining. -/
theorem declined_delete_changes_nothing_witness :
    envDeclining.confirm ("Tem certeza que deseja deletar o professor "
        ++ (JsValue.str "Silva").toJsString ++ "?") = false ∧
    (handleDeleteTeacher envDeclining (.num 7) (.str "Silva") staleApp).2.requests = [] ∧
    (handleDeleteTeacher envDeclining (.num 7) (.str "Silva") staleApp).2.teachers
      = staleApp.teachers :=
  have h := (declined_delete_changes_nothing envDeclining staleApp (.num 7)
    (.str "Silva")).1 rfl
  ⟨rfl, congrArg (fun p => p.2.requests) h, congrArg (fun p => p.2.teachers) h⟩

/-! ## The association form -/

theorem studentService_addSubject_run (env : Env) (studentId subjectId : JsValue)
    (s : App) :
    studentService.addSubject env studentId subjectId s =
      (env.fetch (studentService.addSubjectRequest studentId subjectId) >>= handleResponse,
       { s with requests :=
          s.requests ++ [studentService.addSubjectRequest studentId subjectId] }) := by
  simp only [studentService.addSubject, Act.bind_run, httpFetch_run, Act.lift_run]
  cases env.fetch (studentService.addSubjectRequest studentId subjectId) <;> rfl

theorem handleAssociateSubject_unselected (env : Env) (s : App)
    (h : s.selectedStudentId.truthy = false ∨ s.selectedSubjectId.truthy = false) :
    handleAssociateSubject env s =
      (.ok (), { s with
        associationMessage := "Selecione um aluno e uma matéria para associar."
        associationMessageType := "error" }) := by
  rcases h with h | h
  · simp only [handleAssociateSubject, Act.bind_run, Act.read_run, Act.update_run, h,
      Bool.not_false, Bool.true_or, if_true, Act.pure_run]
  · simp only [handleAssociateSubject, Act.bind_run, Act.read_run, Act.update_run, h,
      Bool.not_false, Bool.or_true, if_true, Act.pure_run]

theorem handleAssociateSubject_success (env : Env) (s : App) (v : JsValue)
    (hstudent : s.selectedStudentId.truthy = true)
    (hsubject : s.selectedSubjectId.truthy = true)
    (hout : env.fetch (studentService.addSubjectRequest s.selectedStudentId
        s.selectedSubjectId) >>= handleResponse = .ok v) :
    handleAssociateSubject env s =
      (.ok (), { s with
        associationMessage := "Matéria associada ao aluno com sucesso!"
        associationMessageType := "success"
        students := (fetchStudentsGlobal env s).2.students
        requests := s.requests ++ [studentService.addSubjectRequest s.selectedStudentId
          s.selectedSubjectId, studentService.getAllRequest] }) := by
  simp [handleAssociateSubject, Act.bind_run, Act.read_run, Act.update_run,
    Act.tryCatch_run, hstudent, hsubject, studentService_addSubject_run, hout,
    Act.detached_run, fetchStudentsGlobal_run, Act.pure_run]

theorem handleAssociateSubject_failure (env : Env) (s : App) (e : JsError)
    (hstudent : s.selectedStudentId.truthy = true)
    (hsubject : s.selectedSubjectId.truthy = true)
    (hout : env.fetch (studentService.addSubjectRequest s.selectedStudentId
        s.selectedSubjectId) >>= handleResponse = .error e) :
    handleAssociateSubject env s =
      (.ok (), { s with
        associationMessage := "Erro ao associar matéria: " ++ e.message
        associationMessageType := "error"
        requests := s.requests ++ [studentService.addSubjectRequest s.selectedStudentId
          s.selectedSubjectId] }) := by
  simp [handleAssociateSubject, Act.bind_run, Act.read_run, Act.update_run,
    Act.tryCatch_run, hstudent, hsubject, studentService_addSubject_run, hout,
    Act.detached_run, fetchStudentsGlobal_run, Act.pure_run]

/-- The test of the association form on its two identifiers: when one of them is falsy (as
the empty string the form starts with is), `handleAssociateSubject` only sets the
validation message with the type `error`; when both are truthy (as every non-empty string
and every non-zero number is) it issues the attach request for that pair once, followed
by nothing but the listing request of a refetch. -/
theorem associate_validates_selection (env : Env) (s : App) :
    ((s.selectedStudentId.truthy = false ∨ s.selectedSubjectId.truthy = false) →
      handleAssociateSubject env s =
        (.ok (), { s with
          associationMessage := "Selecione um aluno e uma matéria para associar."
          associationMessageType := "error" })) ∧
    (s.selectedStudentId.truthy = true → s.selectedSubjectId.truthy = true →
      ∃ rest, (rest = [] ∨ rest = [studentService.getAllRequest]) ∧
        (handleAssociateSubject env s).2.requests
          = s.requests ++ studentService.addSubjectRequest s.selectedStudentId
              s.selectedSubjectId :: rest) ∧
    (JsValue.str "").truthy = false ∧
    (∀ id : String, id ≠ "" → (JsValue.str id).truthy = true) ∧
    (∀ id : Int, id ≠ 0 → (JsValue.num id).truthy = true) := by
  refine ⟨handleAssociateSubject_unselected env s, ?_, rfl, ?_, ?_⟩
  · intro hstudent hsubject
    cases hout : env.fetch (studentService.addSubjectRequest s.selectedStudentId
        s.selectedSubjectId) >>= handleResponse with
    | error e =>
      rw [handleAssociateSubject_failure env s e hstudent hsubject hout]
      exact ⟨[], Or.inl rfl, rfl⟩
    | ok v =>
      rw [handleAssociateSubject_success env s v hstudent hsubject hout]
      exact ⟨[studentService.getAllRequest], Or.inr rfl, rfl⟩
  · intro id hid
    simpa [truthy] using hid
  · intro id hid
    simpa [truthy] using hid

/-- Example: a submit of the form in its initial state, nothing selected, and a submit
with the student 3 and the subject 12 selected. -/
theorem associate_validates_selection_witness :
    (({} : App).selectedStudentId.truthy = false ∧
      (handleAssociateSubject envAttaching {}).2.associationMessage
        = "Selecione um aluno e uma matéria para associar." ∧
      (handleAssociateSubject envAttaching {}).2.requests = []) ∧
    (pairSelectedApp.selectedStudentId.truthy = true ∧
      pairSelectedApp.selectedSubjectId.truthy = true ∧
      ∃ rest, (rest = [] ∨ rest = [studentService.getAllRequest]) ∧
        (handleAssociateSubject envAttaching pairSelectedApp).2.requests
          = [] ++ studentService.addSubjectRequest (.num 3) (.str "12") :: rest) :=
  have h1 := (associate_validates_selection envAttaching {}).1 (Or.inl rfl)
  ⟨⟨rfl, congrArg (fun p => p.2.associationMessage) h1,
      congrArg (fun p => p.2.requests) h1⟩,
    rfl, rfl, (associate_validates_selection envAttaching pairSelectedApp).2.1 rfl rfl⟩

theorem getAllRequest_ne_addSubjectRequest (studentId subjectId : JsValue) :
    studentService.getAllRequest ≠ studentService.addSubjectRequest studentId subjectId :=
  fun h =>
    have hm : "GET" = "POST" := congrArg Request.method h
    absurd hm (by decide)

/-- C14: for every selected student/subject pair (both identifiers truthy),
`handleAssociateSubject` issues the listing request of the students refetch if and only
if the call of `addSubject` succeeds.  On success the state is the prior one with the
confirmation message, the type `success`, the students collection as the refetch stores
it, and the attach request followed by one listing request in the log.  On failure with
the error `e` the state is the prior one with the message `Erro ao associar matéria: `
followed by `e.message`, the type `error`, and the attach request alone in the log. -/
theorem associate_refetches_iff_success (env : Env) (s : App)
    (hstudent : s.selectedStudentId.truthy = true)
    (hsubject : s.selectedSubjectId.truthy = true) :
    (studentService.getAllRequest ∈ (handleAssociateSubject env s).2.requests.drop
        s.requests.length ↔
      ∃ v, (studentService.addSubject env s.selectedStudentId s.selectedSubjectId s).1
        = .ok v) ∧
    (∀ v, (studentService.addSubject env s.selectedStudentId s.selectedSubjectId s).1
        = .ok v →
      handleAssociateSubject env s =
        (.ok (), { s with
          associationMessage := "Matéria associada ao aluno com sucesso!"
          associationMessageType := "success"
          students := (fetchStudentsGlobal env s).2.students
          requests := s.requests ++ [studentService.addSubjectRequest s.selectedStudentId
            s.selectedSubjectId, studentService.getAllRequest] })) ∧
    (∀ e, (studentService.addSubject env s.selectedStudentId s.selectedSubjectId s).1
        = .error e →
      handleAssociateSubject env s =
        (.ok (), { s with
          associationMessage := "Erro ao associar matéria: " ++ e.message
          associationMessageType := "error"
          requests := s.requests ++ [studentService.addSubjectRequest s.selectedStudentId
            s.selectedSubjectId] })) := by
  simp only [studentService_addSubject_run]
  refine ⟨?_, ?_, ?_⟩
  · cases hout : env.fetch (studentService.addSubjectRequest s.selectedStudentId
        s.selectedSubjectId) >>= handleResponse with
    | error e =>
      rw [handleAssociateSubject_failure env s e hstudent hsubject hout]
      simp only [List.drop_left, List.mem_singleton, reduceCtorEq, exists_false, iff_false]
      exact getAllRequest_ne_addSubjectRequest _ _
    | ok v =>
      rw [handleAssociateSubject_success env s v hstudent hsubject hout]
      simp only [List.drop_left]
      exact ⟨fun _ => ⟨v, rfl⟩, fun _ => List.mem_cons_of_mem _ (List.mem_singleton_self _)⟩
  · intro v hout
    exact handleAssociateSubject_success env s v hstudent hsubject hout
  · intro e hout
    exact handleAssociateSubject_failure env s e hstudent hsubject hout

/-- C14 (witness): attaching the subject 12 to the student 3 succeeds, the confirmation is
shown and a new `GET /students` follows the attach request; with the network down the
error message is shown and no listing request follows. -/
theorem associate_refetches_iff_success_witness :
    (pairSelectedApp.selectedStudentId.truthy = true ∧
      pairSelectedApp.selectedSubjectId.truthy = true ∧
      (handleAssociateSubject envAttaching pairSelectedApp).2.associationMessage
        = "Matéria associada ao aluno com sucesso!" ∧
      (handleAssociateSubject envAttaching pairSelectedApp).2.requests
        = [studentService.addSubjectRequest (.num 3) (.str "12"),
            studentService.getAllRequest]) ∧
    ((handleAssociateSubject envOffline pairSelectedApp).2.associationMessage
        = "Erro ao associar matéria: Failed to fetch" ∧
      (handleAssociateSubject envOffline pairSelectedApp).2.requests
        = [studentService.addSubjectRequest (.num 3) (.str "12")]) :=
  have h1 := (associate_refetches_iff_success envAttaching pairSelectedApp rfl rfl).2.1
    _ rfl
  have h2 := (associate_refetches_iff_success envOffline pairSelectedApp rfl rfl).2.2
    _ rfl
  ⟨⟨rfl, rfl, congrArg (fun p => p.2.associationMessage) h1,
      congrArg (fun p => p.2.requests) h1⟩,
    congrArg (fun p => p.2.associationMessage) h2, congrArg (fun p => p.2.requests) h2⟩

/-! ## The create workflows -/

theorem handleStudentSubmit_success_state (env : Env) (s : App)
    (pool : List JsValue) (selected : List JsValue) (newStudent : JsValue)
    (hpool : filterE isFirstYear s.subjects = .ok pool)
    (hsel : mapE idOnly ((env.sortRandom pool).take 5) = .ok selected)
    (hout : env.fetch (studentService.createRequest
          (.obj [("name", .str s.studentName),
                 ("current_year", parseInt (.str s.currentYear)),
                 ("shift", .str s.studentShift),
                 ("subjects", .arr selected)])) >>= handleResponse = .ok newStudent)
    (hnn : newStudent.isNullish = false) :
    handleStudentSubmit env s =
      (.ok (), { s with
        studentMessage := "Aluno \"" ++ (field newStudent "name").toJsString
          ++ "\" cadastrado com sucesso! Matrícula: "
          ++ (field newStudent "enrollment").toJsString
        studentMessageType := "success"
        studentName := ""
        currentYear := ""
        studentShift := "M"
        students := (fetchStudentsGlobal env s).2.students
        requests := s.requests ++ [studentService.createRequest
          (.obj [("name", .str s.studentName),
                 ("current_year", parseInt (.str s.currentYear)),
                 ("shift", .str s.studentShift),
                 ("subjects", .arr selected)]), studentService.getAllRequest] }) := by
  simp only [handleStudentSubmit, Act.bind_run, Act.read_run, Act.update_run,
    Act.tryCatch_run, Act.lift_run, hpool, hsel]
  split_ifs <;>
  simp [Act.bind_run, Act.update_run, Act.tryCatch_run, studentService_create_run,
    Act.lift_run, Act.detached_run, fetchStudentsGlobal_run, Act.pure_run, hout,
    getProp_of_not_nullish _ _ hnn]

theorem handleStudentSubmit_failure_state (env : Env) (s : App)
    (pool : List JsValue) (selected : List JsValue) (e : JsError)
    (hpool : filterE isFirstYear s.subjects = .ok pool)
    (hsel : mapE idOnly ((env.sortRandom pool).take 5) = .ok selected)
    (hout : env.fetch (studentService.createRequest
          (.obj [("name", .str s.studentName),
                 ("current_year", parseInt (.str s.currentYear)),
                 ("shift", .str s.studentShift),
                 ("subjects", .arr selected)])) >>= handleResponse = .error e) :
    handleStudentSubmit env s =
      (.ok (), { s with
        studentMessage := "Erro ao cadastrar aluno: " ++ e.message
        studentMessageType := "error"
        requests := s.requests ++ [studentService.createRequest
          (.obj [("name", .str s.studentName),
                 ("current_year", parseInt (.str s.currentYear)),
                 ("shift", .str s.studentShift),
                 ("subjects", .arr selected)])] }) := by
  simp only [handleStudentSubmit, Act.bind_run, Act.read_run, Act.update_run,
    Act.tryCatch_run, Act.lift_run, hpool, hsel]
  split_ifs <;>
  simp [Act.bind_run, Act.update_run, Act.tryCatch_run, studentService_create_run,
    Act.lift_run, Act.detached_run, fetchStudentsGlobal_run, Act.pure_run, hout]

theorem handleTeacherSubmit_success_state (env : Env) (s : App) (newTeacher : JsValue)
    (hout : env.fetch (teacherService.createRequest
          (.obj [("name", .str s.teacherName),
                 ("department", .str s.teacherDepartment)])) >>= handleResponse
        = .ok newTeacher)
    (hnn : newTeacher.isNullish = false) :
    handleTeacherSubmit env s =
      (.ok (), { s with
        teacherMessage := "Professor \"" ++ (field newTeacher "name").toJsString
          ++ "\" cadastrado com sucesso! Registro: "
          ++ (field newTeacher "registry").toJsString
        teacherMessageType := "success"
        teacherName := ""
        teacherDepartment := ""
        teachers := (fetchTeachersGlobal env s).2.teachers
        requests := s.requests ++ [teacherService.createRequest
          (.obj [("name", .str s.teacherName),
                 ("department", .str s.teacherDepartment)]),
          teacherService.getAllRequest] }) := by
  simp [handleTeacherSubmit, Act.bind_run, Act.read_run, Act.update_run,
    Act.tryCatch_run, Act.lift_run, teacherService_create_run,
    Act.detached_run, fetchTeachersGlobal_run, Act.pure_run, hout,
    getProp_of_not_nullish _ _ hnn]

theorem handleTeacherSubmit_failure_state (env : Env) (s : App) (e : JsError)
    (hout : env.fetch (teacherService.createRequest
          (.obj [("name", .str s.teacherName),
                 ("department", .str s.teacherDepartment)])) >>= handleResponse
        = .error e) :
    handleTeacherSubmit env s =
      (.ok (), { s with
        teacherMessage := "Erro ao cadastrar professor: " ++ e.message
        teacherMessageType := "error"
        requests := s.requests ++ [teacherService.createRequest
          (.obj [("name", .str s.teacherName),
                 ("department", .str s.teacherDepartment)])] }) := by
  simp [handleTeacherSubmit, Act.bind_run, Act.read_run, Act.update_run,
    Act.tryCatch_run, Act.lift_run, teacherService_create_run,
    Act.detached_run, fetchTeachersGlobal_run, Act.pure_run, hout]

/-- The create workflows on a created record and on a failed call, once the create request
is made: when the call of `create` returns a record other than `null`,
`handleStudentSubmit` resets the name, the year and the shift to their initial values, and
`handleTeacherSubmit` the name and the department, and the listing request of the
collection's refetch follows the create request once; when the call fails with an error
`e`, the fields keep the entered values, the message is the error prefix followed by
`e.message` with the type `error`, no request follows the create request and the
collection is untouched. -/
theorem create_resets_fields_on_success_only (env : Env) (s : App) :
    (∀ pool selected, filterE isFirstYear s.subjects = .ok pool →
      mapE idOnly ((env.sortRandom pool).take 5) = .ok selected →
      (∀ newStudent,
        (studentService.create env
          (.obj [("name", .str s.studentName),
                 ("current_year", parseInt (.str s.currentYear)),
                 ("shift", .str s.studentShift),
                 ("subjects", .arr selected)]) s).1 = .ok newStudent →
        newStudent.isNullish = false →
        (handleStudentSubmit env s).2.studentName = "" ∧
        (handleStudentSubmit env s).2.currentYear = "" ∧
        (handleStudentSubmit env s).2.studentShift = "M" ∧
        (handleStudentSubmit env s).2.requests
          = s.requests ++ [studentService.createRequest
              (.obj [("name", .str s.studentName),
                     ("current_year", parseInt (.str s.currentYear)),
                     ("shift", .str s.studentShift),
                     ("subjects", .arr selected)]), studentService.getAllRequest]) ∧
      (∀ e,
        (studentService.create env
          (.obj [("name", .str s.studentName),
                 ("current_year", parseInt (.str s.currentYear)),
                 ("shift", .str s.studentShift),
                 ("subjects", .arr selected)]) s).1 = .error e →
        (handleStudentSubmit env s).2.studentName = s.studentName ∧
        (handleStudentSubmit env s).2.currentYear = s.currentYear ∧
        (handleStudentSubmit env s).2.studentShift = s.studentShift ∧
        (handleStudentSubmit env s).2.studentMessage
          = "Erro ao cadastrar aluno: " ++ e.message ∧
        (handleStudentSubmit env s).2.studentMessageType = "error" ∧
        (handleStudentSubmit env s).2.requests
          = s.requests ++ [studentService.createRequest
              (.obj [("name", .str s.studentName),
                     ("current_year", parseInt (.str s.currentYear)),
                     ("shift", .str s.studentShift),
                     ("subjects", .arr selected)])] ∧
        (handleStudentSubmit env s).2.students = s.students)) ∧
    (∀ newTeacher,
      (teacherService.create env
        (.obj [("name", .str s.teacherName),
               ("department", .str s.teacherDepartment)]) s).1 = .ok newTeacher →
      newTeacher.isNullish = false →
      (handleTeacherSubmit env s).2.teacherName = "" ∧
      (handleTeacherSubmit env s).2.teacherDepartment = "" ∧
      (handleTeacherSubmit env s).2.requests
        = s.requests ++ [teacherService.createRequest
            (.obj [("name", .str s.teacherName),
                   ("department", .str s.teacherDepartment)]),
            teacherService.getAllRequest]) ∧
    (∀ e,
      (teacherService.create env
        (.obj [("name", .str s.teacherName),
               ("department", .str s.teacherDepartment)]) s).1 = .error e →
      (handleTeacherSubmit env s).2.teacherName = s.teacherName ∧
      (handleTeacherSubmit env s).2.teacherDepartment = s.teacherDepartment ∧
      (handleTeacherSubmit env s).2.teacherMessage
        = "Erro ao cadastrar professor: " ++ e.message ∧
      (handleTeacherSubmit env s).2.teacherMessageType = "error" ∧
      (handleTeacherSubmit env s).2.requests
        = s.requests ++ [teacherService.createRequest
            (.obj [("name", .str s.teacherName),
                   ("department", .str s.teacherDepartment)])] ∧
      (handleTeacherSubmit env s).2.teachers = s.teachers) := by
  simp only [studentService_create_run, teacherService_create_run]
  refine ⟨?_, ?_, ?_⟩
  · intro pool selected hpool hsel
    refine ⟨?_, ?_⟩
    · intro newStudent hout hnn
      rw [handleStudentSubmit_success_state env s pool selected newStudent hpool hsel hout hnn]
      exact ⟨rfl, rfl, rfl, rfl⟩
    · intro e hout
      rw [handleStudentSubmit_failure_state env s pool selected e hpool hsel hout]
      exact ⟨rfl, rfl, rfl, rfl, rfl, rfl, rfl⟩
  · intro newTeacher hout hnn
    rw [handleTeacherSubmit_success_state env s newTeacher hout hnn]
    exact ⟨rfl, rfl, rfl⟩
  · intro e hout
    rw [handleTeacherSubmit_failure_state env s e hout]
    exact ⟨rfl, rfl, rfl, rfl, rfl, rfl⟩

/-- Example: with the forms filled in, a server that creates the record resets the student
fields and a network that is down leaves the teacher fields as entered. -/
theorem create_resets_fields_on_success_only_witness :
    (filledFormsApp.studentName = "Ana" ∧
      (handleStudentSubmit envCreating filledFormsApp).2.studentName = "" ∧
      (handleStudentSubmit envCreating filledFormsApp).2.currentYear = "" ∧
      (handleStudentSubmit envCreating filledFormsApp).2.studentShift = "M" ∧
      (handleStudentSubmit envCreating filledFormsApp).2.requests
        = [] ++ [studentService.createRequest
            (.obj [("name", .str "Ana"), ("current_year", .num 2), ("shift", .str "N"),
                   ("subjects", .arr [])]), studentService.getAllRequest]) ∧
    ((handleTeacherSubmit envOffline filledFormsApp).2.teacherName = "Silva" ∧
      (handleTeacherSubmit envOffline filledFormsApp).2.teacherDepartment = "Physics" ∧
      (handleTeacherSubmit envOffline filledFormsApp).2.teacherMessage
        = "Erro ao cadastrar professor: Failed to fetch") :=
  have h1 := ((create_resets_fields_on_success_only envCreating filledFormsApp).1
    [] [] rfl rfl).1 _ rfl rfl
  have h2 := (create_resets_fields_on_success_only envOffline filledFormsApp).2.2
    _ rfl
  ⟨⟨rfl, h1⟩, h2.1, h2.2.1, h2.2.2.1⟩

/-- The handlers themselves check none of the fields: once called, `handleTeacherSubmit`
issues the create request with the entered values, and so does `handleStudentSubmit` once
the subject selection is made, with the year as `parseInt` reads it (`NaN` for an empty
year, which `JSON.stringify` writes as `null`).  What keeps an incomplete form from being
sent are the constraints of its controls, see `submitStudentForm`. -/
theorem create_request_sent_for_any_fields (env : Env) (s : App) :
    (∀ pool selected, filterE isFirstYear s.subjects = .ok pool →
      mapE idOnly ((env.sortRandom pool).take 5) = .ok selected →
      ∃ rest, (handleStudentSubmit env s).2.requests
        = s.requests ++ studentService.createRequest
            (.obj [("name", .str s.studentName),
                   ("current_year", parseInt (.str s.currentYear)),
                   ("shift", .str s.studentShift),
                   ("subjects", .arr selected)]) :: rest) ∧
    (∃ rest, (handleTeacherSubmit env s).2.requests
      = s.requests ++ teacherService.createRequest
          (.obj [("name", .str s.teacherName),
                 ("department", .str s.teacherDepartment)]) :: rest) ∧
    parseInt (.str "") = .nan := by
  refine ⟨fun pool selected hpool hsel =>
    handleStudentSubmit_requests env s pool selected hpool hsel, ?_, rfl⟩
  cases hout : env.fetch (teacherService.createRequest
        (.obj [("name", .str s.teacherName),
               ("department", .str s.teacherDepartment)])) >>= handleResponse with
  | error e =>
    rw [handleTeacherSubmit_failure_state env s e hout]
    exact ⟨[], rfl⟩
  | ok newTeacher =>
    cases hnn : newTeacher.isNullish with
    | false =>
      rw [handleTeacherSubmit_success_state env s newTeacher hout hnn]
      exact ⟨[teacherService.getAllRequest], rfl⟩
    | true =>
      refine ⟨[], ?_⟩
      cases newTeacher <;> simp [isNullish] at hnn <;>
      simp [handleTeacherSubmit, Act.bind_run, Act.read_run, Act.update_run,
        Act.tryCatch_run, Act.lift_run, teacherService_create_run, hout, getProp]

/-! ## The requests of the services -/

theorem studentService_delete_requests (env : Env) (id : JsValue) (s : App) :
    (studentService.delete env id s).2.requests
      = s.requests ++ [studentService.deleteRequest id] := by
  simp only [studentService.delete, Act.bind_run, httpFetch_run]
  cases env.fetch (studentService.deleteRequest id) with
  | error e => rfl
  | ok r => cases hok : r.ok <;> simp [hok]

theorem teacherService_delete_requests (env : Env) (id : JsValue) (s : App) :
    (teacherService.delete env id s).2.requests
      = s.requests ++ [teacherService.deleteRequest id] := by
  simp only [teacherService.delete, Act.bind_run, httpFetch_run]
  cases env.fetch (teacherService.deleteRequest id) with
  | error e => rfl
  | ok r => cases hok : r.ok <;> simp [hok]

theorem studentService_removeSubject_requests (env : Env) (studentId subjectId : JsValue)
    (s : App) :
    (studentService.removeSubject env studentId subjectId s).2.requests
      = s.requests ++ [studentService.removeSubjectRequest studentId subjectId] := by
  simp only [studentService.removeSubject, Act.bind_run, httpFetch_run]
  cases env.fetch (studentService.removeSubjectRequest studentId subjectId) with
  | error e => rfl
  | ok r => cases hok : r.ok <;> simp [hok]

/-- C17: every operation of the three services issues exactly one request, with the method
and the path of the interface table.  `addSubject` issues a POST and `removeSubject` a
DELETE to `API_BASE_URL/students/<studentId>/subjects/<subjectId>`, without body;
`getAll` a GET to `/students`, `/teachers`, `/subjects`; `create` a POST to `/students`,
`/teachers` and `update` a PUT to `/students/<id>`, `/teachers/<id>`, both with the
content type `application/json` and the given payload as the body that `JSON.stringify`
encodes; `delete` a DELETE to `/students/<id>`, `/teachers/<id>`, without body.  A
request is written `Request.mk method url headers body`. -/
theorem service_requests_follow_interface (env : Env) (s : App)
    (id studentId subjectId payload : JsValue) :
    (studentService.addSubject env studentId subjectId s).2.requests
      = s.requests ++ [Request.mk "POST"
          (API_BASE_URL ++ "/students/" ++ studentId.toJsString ++ "/subjects/"
            ++ subjectId.toJsString)
          [] none] ∧
    (studentService.removeSubject env studentId subjectId s).2.requests
      = s.requests ++ [Request.mk "DELETE"
          (API_BASE_URL ++ "/students/" ++ studentId.toJsString ++ "/subjects/"
            ++ subjectId.toJsString)
          [] none] ∧
    (studentService.getAll env s).2.requests
      = s.requests ++ [Request.mk "GET"
          (API_BASE_URL ++ "/students")
          [] none] ∧
    (teacherService.getAll env s).2.requests
      = s.requests ++ [Request.mk "GET"
          (API_BASE_URL ++ "/teachers")
          [] none] ∧
    (subjectService.getAll env s).2.requests
      = s.requests ++ [Request.mk "GET"
          (API_BASE_URL ++ "/subjects")
          [] none] ∧
    (studentService.create env payload s).2.requests
      = s.requests ++ [Request.mk "POST"
          (API_BASE_URL ++ "/students")
          [("Content-Type", "application/json")] (some payload)] ∧
    (teacherService.create env payload s).2.requests
      = s.requests ++ [Request.mk "POST"
          (API_BASE_URL ++ "/teachers")
          [("Content-Type", "application/json")] (some payload)] ∧
    (studentService.update env id payload s).2.requests
      = s.requests ++ [Request.mk "PUT"
          (API_BASE_URL ++ "/students/" ++ id.toJsString)
          [("Content-Type", "application/json")] (some payload)] ∧
    (teacherService.update env id payload s).2.requests
      = s.requests ++ [Request.mk "PUT"
          (API_BASE_URL ++ "/teachers/" ++ id.toJsString)
          [("Content-Type", "application/json")] (some payload)] ∧
    (studentService.delete env id s).2.requests
      = s.requests ++ [Request.mk "DELETE"
          (API_BASE_URL ++ "/students/" ++ id.toJsString)
          [] none] ∧
    (teacherService.delete env id s).2.requests
      = s.requests ++ [Request.mk "DELETE"
          (API_BASE_URL ++ "/teachers/" ++ id.toJsString)
          [] none] := by
  rw [studentService_addSubject_run, studentService_removeSubject_requests,
    studentService_getAll_run, teacherService_getAll_run, subjectService_getAll_run,
    studentService_create_run, teacherService_create_run, studentService_update_run,
    teacherService_update_run, studentService_delete_requests,
    teacherService_delete_requests]
  exact ⟨rfl, rfl, rfl, rfl, rfl, rfl, rfl, rfl, rfl, rfl, rfl⟩

/-! ## The create payloads -/

theorem filterE_isFirstYear_eq (l pool : List JsValue)
    (h : filterE isFirstYear l = .ok pool) : pool = firstYearPool l := by
  induction l generalizing pool with
  | nil =>
    cases h
    rfl
  | cons x rest ih =>
    cases hx : x.isNullish with
    | true =>
      cases x <;> simp [isNullish] at hx <;> simp [filterE, isFirstYear, getProp] at h
    | false =>
      simp only [filterE, isFirstYear, getProp_of_not_nullish x "year" hx] at h
      cases hrest : filterE isFirstYear rest with
      | error e => simp [hrest] at h
      | ok kept =>
        have hk := ih kept hrest
        simp only [hrest] at h
        cases h
        simp only [firstYearPool, List.filter_cons] at hk ⊢
        rw [hk]

theorem mapE_idOnly_entries (l ids : List JsValue) (h : mapE idOnly l = .ok ids) :
    ∀ entry ∈ ids, ∃ sub ∈ l, entry = JsValue.obj [("id", field sub "id")] := by
  induction l generalizing ids with
  | nil =>
    cases h
    intro entry hentry
    cases hentry
  | cons x rest ih =>
    cases hx : x.isNullish with
    | true =>
      cases x <;> simp [isNullish] at hx <;> simp [mapE, idOnly, getProp] at h
    | false =>
      simp only [mapE, idOnly, getProp_of_not_nullish x "id" hx] at h
      cases hrest : mapE idOnly rest with
      | error e => simp [hrest] at h
      | ok ys =>
        simp only [hrest] at h
        cases h
        intro entry hentry
        rcases List.mem_cons.mp hentry with rfl | hmem
        · exact ⟨x, List.mem_cons_self _ _, rfl⟩
        · obtain ⟨sub, hsub, hent⟩ := ih ys hrest entry hmem
          exact ⟨sub, List.mem_cons_of_mem _ hsub, hent⟩

theorem handleStudentSubmit_requests_cases (env : Env) (s : App) :
    (handleStudentSubmit env s).2.requests = s.requests ∨
    ∃ pool selected rest, filterE isFirstYear s.subjects = .ok pool ∧
      mapE idOnly ((env.sortRandom pool).take 5) = .ok selected ∧
      (rest = [] ∨ rest = [studentService.getAllRequest]) ∧
      (handleStudentSubmit env s).2.requests
        = s.requests ++ studentService.createRequest
            (.obj [("name", .str s.studentName),
                   ("current_year", parseInt (.str s.currentYear)),
                   ("shift", .str s.studentShift),
                   ("subjects", .arr selected)]) :: rest := by
  cases hpool : filterE isFirstYear s.subjects with
  | error e =>
    left
    simp only [handleStudentSubmit, Act.bind_run, Act.read_run, Act.update_run,
      Act.lift_run, hpool]
  | ok pool =>
    cases hsel : mapE idOnly ((env.sortRandom pool).take 5) with
    | error e =>
      left
      simp only [handleStudentSubmit, Act.bind_run, Act.read_run, Act.update_run,
        Act.lift_run, hpool, hsel]
    | ok selected =>
      right
      refine ⟨pool, selected, ?_⟩
      simp only [handleStudentSubmit, Act.bind_run, Act.read_run, Act.update_run,
        Act.tryCatch_run, Act.lift_run, hpool, hsel]
      generalize hout : env.fetch (studentService.createRequest
              (.obj [("name", .str s.studentName),
                     ("current_year", parseInt (.str s.currentYear)),
                     ("shift", .str s.studentShift),
                     ("subjects", .arr selected)])) >>= handleResponse = outcome
      split_ifs <;>
      · simp only [Act.bind_run, Act.update_run, Act.tryCatch_run, studentService_create_run,
          Act.lift_run, Act.detached_run, fetchStudentsGlobal_run, Act.pure_run, hout]
        cases outcome with
        | error e => exact ⟨[], trivial, trivial, Or.inl rfl, rfl⟩
        | ok newStudent =>
          simp only []
          cases getProp newStudent "name" with
          | error e => exact ⟨[], trivial, trivial, Or.inl rfl, rfl⟩
          | ok name =>
            simp only []
            cases getProp newStudent "enrollment" with
            | error e => exact ⟨[], trivial, trivial, Or.inl rfl, rfl⟩
            | ok enrollment =>
              exact ⟨[studentService.getAllRequest], trivial, trivial, Or.inr rfl, by simp⟩

theorem handleTeacherSubmit_requests_cases (env : Env) (s : App) :
    ∃ rest, (rest = [] ∨ rest = [teacherService.getAllRequest]) ∧
      (handleTeacherSubmit env s).2.requests
        = s.requests ++ teacherService.createRequest
            (.obj [("name", .str s.teacherName),
                   ("department", .str s.teacherDepartment)]) :: rest := by
  simp only [handleTeacherSubmit, Act.bind_run, Act.read_run, Act.update_run,
    Act.tryCatch_run, Act.lift_run, teacherService_create_run]
  cases env.fetch (teacherService.createRequest
        (.obj [("name", .str s.teacherName),
               ("department", .str s.teacherDepartment)])) >>= handleResponse with
  | error e => exact ⟨[], Or.inl rfl, rfl⟩
  | ok newTeacher =>
    simp only []
    cases getProp newTeacher "name" with
    | error e => exact ⟨[], Or.inl rfl, rfl⟩
    | ok name =>
      simp only []
      cases getProp newTeacher "registry" with
      | error e => exact ⟨[], Or.inl rfl, rfl⟩
      | ok registry =>
        exact ⟨[teacherService.getAllRequest], Or.inr rfl,
          by simp [Act.detached_run, fetchTeachersGlobal_run]⟩

/-- C18: the client puts no identifier or code of its own into a create request.  For
every state and every outcome of the random sort that is a permutation of the year-1
pool, every POST that `handleStudentSubmit` issues has a payload with exactly the fields
`name`, `current_year`, `shift` and `subjects`, holding the entered name, the parsed year,
the entered shift, and entries `{id}` whose id is the `id` of a subject of the fetched
collection, unchanged; every POST that `handleTeacherSubmit` issues has a payload with
exactly the fields `name` and `department`, holding the entered values.  Neither payload
has a field `id`, `enrollment` or `registry`. -/
theorem create_payload_carries_no_code (env : Env) (s : App)
    (hperm : (env.sortRandom (firstYearPool s.subjects)).Perm (firstYearPool s.subjects)) :
    (∀ req ∈ (handleStudentSubmit env s).2.requests.drop s.requests.length,
      req.method = "POST" →
      ∃ payload selected, req.body = some payload ∧
        payload = .obj [("name", .str s.studentName),
                        ("current_year", parseInt (.str s.currentYear)),
                        ("shift", .str s.studentShift),
                        ("subjects", .arr selected)] ∧
        payload.keys = ["name", "current_year", "shift", "subjects"] ∧
        field payload "id" = .undefined ∧ field payload "enrollment" = .undefined ∧
        (∀ entry ∈ selected, ∃ sub ∈ s.subjects,
          entry = .obj [("id", field sub "id")] ∧ entry.keys = ["id"])) ∧
    (∀ req ∈ (handleTeacherSubmit env s).2.requests.drop s.requests.length,
      req.method = "POST" →
      ∃ payload, req.body = some payload ∧
        payload = .obj [("name", .str s.teacherName),
                        ("department", .str s.teacherDepartment)] ∧
        payload.keys = ["name", "department"] ∧
        field payload "id" = .undefined ∧ field payload "registry" = .undefined) := by
  refine ⟨?_, ?_⟩
  · intro req hreq hpost
    rcases handleStudentSubmit_requests_cases env s with
      h | ⟨pool, selected, rest, hpool, hsel, hrest, h⟩
    · rw [h, List.drop_length] at hreq
      cases hreq
    · rw [h, List.drop_left] at hreq
      have hreq2 : req = studentService.createRequest
            (.obj [("name", .str s.studentName),
                   ("current_year", parseInt (.str s.currentYear)),
                   ("shift", .str s.studentShift),
                   ("subjects", .arr selected)]) := by
        rcases List.mem_cons.mp hreq with rfl | hmem
        · rfl
        · rcases hrest with rfl | rfl
          · cases hmem
          · rcases List.mem_singleton.mp hmem with rfl
            exact absurd hpost (by decide)
      subst hreq2
      refine ⟨_, selected, rfl, rfl, rfl, rfl, rfl, ?_⟩
      intro entry hentry
      obtain ⟨sub, hsub, hent⟩ := mapE_idOnly_entries _ _ hsel entry hentry
      have hpool2 := filterE_isFirstYear_eq _ _ hpool
      subst hpool2
      have h1 : sub ∈ firstYearPool s.subjects := hperm.subset (List.mem_of_mem_take hsub)
      have h2 : sub ∈ s.subjects := (List.mem_filter.mp h1).1
      exact ⟨sub, h2, hent, by rw [hent]; rfl⟩
  · intro req hreq hpost
    obtain ⟨rest, hrest, h⟩ := handleTeacherSubmit_requests_cases env s
    rw [h, List.drop_left] at hreq
    have hreq2 : req = teacherService.createRequest
          (.obj [("name", .str s.teacherName),
                 ("department", .str s.teacherDepartment)]) := by
      rcases List.mem_cons.mp hreq with rfl | hmem
      · rfl
      · rcases hrest with rfl | rfl
        · cases hmem
        · rcases List.mem_singleton.mp hmem with rfl
          exact absurd hpost (by decide)
    subst hreq2
    exact ⟨_, rfl, rfl, rfl, rfl, rfl⟩

/-- C18 (witness): with three year-1 subjects and a sort that reverses, the create request
for Ana is a POST that `handleStudentSubmit` issues, and its payload has the four fields,
the subject entries taken from the collection. -/
theorem create_payload_carries_no_code_witness :
    (envCreating.sortRandom (firstYearPool threeFirstYearApp.subjects)).Perm
      (firstYearPool threeFirstYearApp.subjects) ∧
    ∃ payload selected,
      (studentService.createRequest
        (.obj [("name", .str "Ana"), ("current_year", .num 1), ("shift", .str "M"),
               ("subjects", .arr [.obj [("id", .num 4)], .obj [("id", .num 3)],
                  .obj [("id", .num 1)]])])).body = some payload ∧
      payload = .obj [("name", .str threeFirstYearApp.studentName),
                      ("current_year", parseInt (.str threeFirstYearApp.currentYear)),
                      ("shift", .str threeFirstYearApp.studentShift),
                      ("subjects", .arr selected)] ∧
      payload.keys = ["name", "current_year", "shift", "subjects"] ∧
      field payload "id" = .undefined ∧ field payload "enrollment" = .undefined ∧
      (∀ entry ∈ selected, ∃ sub ∈ threeFirstYearApp.subjects,
        entry = .obj [("id", field sub "id")] ∧ entry.keys = ["id"]) :=
  have hperm : (envCreating.sortRandom (firstYearPool threeFirstYearApp.subjects)).Perm
      (firstYearPool threeFirstYearApp.subjects) := List.reverse_perm _
  ⟨hperm, (create_payload_carries_no_code envCreating threeFirstYearApp hperm).1
    (studentService.createRequest
        (.obj [("name", .str "Ana"), ("current_year", .num 1), ("shift", .str "M"),
               ("subjects", .arr [.obj [("id", .num 4)], .obj [("id", .num 3)],
                  .obj [("id", .num 1)]])]))
    (List.mem_cons_self _ _) rfl⟩

/-! ## The shared collections -/

theorem ArrayHeap.read_alloc_new (h : ArrayHeap) (items : List JsValue) :
    (h.alloc items).1.read (h.alloc items).2 = items := by
  simp [ArrayHeap.read, ArrayHeap.alloc, List.getD_eq_getElem?_getD]

theorem ArrayHeap.read_alloc_old (h : ArrayHeap) (items : List JsValue) (a : Nat)
    (ha : a < h.cells.length) : (h.alloc items).1.read a = h.read a := by
  simp [ArrayHeap.read, ArrayHeap.alloc, List.getD_eq_getElem?_getD,
    List.getElem?_append_left ha]

theorem ArrayHeap.read_write_same (h : ArrayHeap) (items : List JsValue) (a : Nat)
    (ha : a < h.cells.length) : (h.write a items).read a = items := by
  simp [ArrayHeap.read, ArrayHeap.write, List.getD_eq_getElem?_getD, ha]

theorem ArrayHeap.read_write_other (h : ArrayHeap) (items : List JsValue) (a b : Nat)
    (hab : a ≠ b) : (h.write a items).read b = h.read b := by
  simp [ArrayHeap.read, ArrayHeap.write, List.getD_eq_getElem?_getD,
    List.getElem?_set_ne hab]

theorem ArrayHeap.length_alloc (h : ArrayHeap) (items : List JsValue) :
    (h.alloc items).1.cells.length = h.cells.length + 1 := by
  simp [ArrayHeap.alloc]

theorem ArrayHeap.length_write (h : ArrayHeap) (items : List JsValue) (a : Nat) :
    (h.write a items).cells.length = h.cells.length := by
  simp [ArrayHeap.write]

theorem ArrayHeap.alloc_address (h : ArrayHeap) (items : List JsValue) :
    (h.alloc items).2 = h.cells.length := rfl

theorem selectSubjectsOnHeap_run (env : Env) (h : ArrayHeap) (subjects : Nat)
    (pool selected : List JsValue)
    (hpool : filterE isFirstYear (h.read subjects) = .ok pool)
    (hsel : mapE idOnly ((env.sortRandom pool).take 5) = .ok selected) :
    selectSubjectsOnHeap env h subjects =
      .ok (ArrayHeap.mk (h.cells ++
            [env.sortRandom pool, (env.sortRandom pool).take 5, selected]),
           h.cells.length, h.cells.length + 2) := by
  have hlt : (h.alloc pool).2 < (h.alloc pool).1.cells.length := by
    rw [ArrayHeap.length_alloc, ArrayHeap.alloc_address]
    exact Nat.lt_succ_self _
  simp only [selectSubjectsOnHeap, hpool, ArrayHeap.read_alloc_new,
    ArrayHeap.read_write_same _ _ _ hlt, hsel]
  simp [ArrayHeap.alloc, ArrayHeap.write]

theorem ArrayHeap.read_appended (h : ArrayHeap) (more : List (List JsValue)) (k : Nat) :
    (ArrayHeap.mk (h.cells ++ more)).read (h.cells.length + k) = more.getD k [] := by
  simp [ArrayHeap.read, List.getD_eq_getElem?_getD, List.getElem?_append_right]

theorem ArrayHeap.read_extended (h : ArrayHeap) (more : List (List JsValue)) (a : Nat)
    (ha : a < h.cells.length) : (ArrayHeap.mk (h.cells ++ more)).read a = h.read a := by
  simp [ArrayHeap.read, List.getD_eq_getElem?_getD, List.getElem?_append_left ha]

theorem handleStudentSubmit_collections (env : Env) (s : App) :
    (handleStudentSubmit env s).2.subjects = s.subjects ∧
    (handleStudentSubmit env s).2.teachers = s.teachers ∧
    ((handleStudentSubmit env s).2.students = s.students ∨
      ((handleStudentSubmit env s).2.students = (fetchStudentsGlobal env s).2.students ∧
        studentService.getAllRequest
          ∈ (handleStudentSubmit env s).2.requests.drop s.requests.length)) := by
  cases hpool : filterE isFirstYear s.subjects with
  | error e =>
    simp [handleStudentSubmit, Act.bind_run, Act.read_run, Act.update_run,
      Act.lift_run, hpool]
  | ok pool =>
    cases hsel : mapE idOnly ((env.sortRandom pool).take 5) with
    | error e =>
      simp [handleStudentSubmit, Act.bind_run, Act.read_run, Act.update_run,
        Act.lift_run, hpool, hsel]
    | ok selected =>
      simp only [handleStudentSubmit, Act.bind_run, Act.read_run, Act.update_run,
        Act.tryCatch_run, Act.lift_run, hpool, hsel]
      generalize hout : env.fetch (studentService.createRequest
              (.obj [("name", .str s.studentName),
                     ("current_year", parseInt (.str s.currentYear)),
                     ("shift", .str s.studentShift),
                     ("subjects", .arr selected)])) >>= handleResponse = outcome
      split_ifs <;>
      · simp only [Act.bind_run, Act.update_run, Act.tryCatch_run, studentService_create_run,
          Act.lift_run, Act.detached_run, fetchStudentsGlobal_run, Act.pure_run, hout]
        cases outcome with
        | error e => exact ⟨rfl, rfl, Or.inl rfl⟩
        | ok newStudent =>
          simp only []
          cases getProp newStudent "name" with
          | error e => exact ⟨rfl, rfl, Or.inl rfl⟩
          | ok name =>
            simp only []
            cases getProp newStudent "enrollment" with
            | error e => exact ⟨rfl, rfl, Or.inl rfl⟩
            | ok enrollment =>
              exact ⟨rfl, rfl, Or.inr ⟨rfl, by simp⟩⟩

theorem studentService_delete_run (env : Env) (id : JsValue) (s : App) :
    studentService.delete env id s =
      ((studentService.delete env id s).1,
       { s with requests := s.requests ++ [studentService.deleteRequest id] }) := by
  simp only [studentService.delete, Act.bind_run, httpFetch_run]
  cases env.fetch (studentService.deleteRequest id) with
  | error e => rfl
  | ok r => cases hok : r.ok <;> simp [hok]

theorem teacherService_delete_run (env : Env) (id : JsValue) (s : App) :
    teacherService.delete env id s =
      ((teacherService.delete env id s).1,
       { s with requests := s.requests ++ [teacherService.deleteRequest id] }) := by
  simp only [teacherService.delete, Act.bind_run, httpFetch_run]
  cases env.fetch (teacherService.deleteRequest id) with
  | error e => rfl
  | ok r => cases hok : r.ok <;> simp [hok]

theorem handleDeleteStudent_collections (env : Env) (s : App) (id name : JsValue) :
    (handleDeleteStudent env id name s).2.subjects = s.subjects ∧
    (handleDeleteStudent env id name s).2.teachers = s.teachers ∧
    ((handleDeleteStudent env id name s).2.students = s.students ∨
      ((handleDeleteStudent env id name s).2.students
          = (fetchStudentsGlobal env s).2.students ∧
        studentService.getAllRequest
          ∈ (handleDeleteStudent env id name s).2.requests.drop s.requests.length)) := by
  cases hc : env.confirm
      ("Tem certeza que deseja deletar o aluno " ++ name.toJsString ++ "?") with
  | false =>
    simp [handleDeleteStudent, hc, Act.pure_run]
  | true =>
    simp only [handleDeleteStudent, hc, if_true, Act.tryCatch_run, Act.bind_run]
    rw [studentService_delete_run]
    cases (studentService.delete env id s).1 with
    | error e => exact ⟨rfl, rfl, Or.inl rfl⟩
    | ok v =>
      simp [Act.update_run, Act.detached_run, fetchStudentsGlobal_run]

theorem handleUpdateStudent_collections (s : App) (student : JsValue) :
    (handleUpdateStudent student s).2.subjects = s.subjects ∧
    (handleUpdateStudent student s).2.teachers = s.teachers ∧
    (handleUpdateStudent student s).2.students = s.students := by
  cases student <;>
  simp [handleUpdateStudent, Act.bind_run, Act.update_run, Act.lift_run, getProp]

theorem handleCancelEditStudent_collections (s : App) :
    (handleCancelEditStudent s).2.subjects = s.subjects ∧
    (handleCancelEditStudent s).2.teachers = s.teachers ∧
    (handleCancelEditStudent s).2.students = s.students := by
  simp [handleCancelEditStudent, Act.bind_run, Act.update_run]

theorem handleUpdateStudentSubmit_collections (env : Env) (s : App) :
    (handleUpdateStudentSubmit env s).2.subjects = s.subjects ∧
    (handleUpdateStudentSubmit env s).2.teachers = s.teachers ∧
    ((handleUpdateStudentSubmit env s).2.students = s.students ∨
      ((handleUpdateStudentSubmit env s).2.students
          = (fetchStudentsGlobal env s).2.students ∧
        studentService.getAllRequest
          ∈ (handleUpdateStudentSubmit env s).2.requests.drop s.requests.length)) := by
  cases ht : s.editingStudent.truthy
  · simp [handleUpdateStudentSubmit, Act.bind_run, Act.read_run, Act.update_run, ht,
      Act.pure_run]
  · have hn := truthy_not_nullish _ ht
    simp only [handleUpdateStudentSubmit, Act.bind_run, Act.read_run, Act.update_run,
      Act.tryCatch_run, Act.lift_run, ht,
      getProp_of_not_nullish _ _ hn, Bool.not_true, Bool.false_eq_true, if_false,
      Act.pure_run, studentService_update_run, Act.detached_run, fetchStudentsGlobal_run]
    cases hs : subjectIdsOrEmpty (field s.editingStudent "subjects") with
    | error e => exact ⟨rfl, rfl, Or.inl rfl⟩
    | ok ids =>
      simp only []
      cases env.fetch (studentService.updateRequest (field s.editingStudent "id")
            (.obj [("enrollment", field s.editingStudent "enrollment"),
                   ("name", s.editStudentName),
                   ("current_year", parseInt s.editCurrentYear),
                   ("shift", s.editStudentShift),
                   ("subjects", ids)])) >>= handleResponse with
      | error e => exact ⟨rfl, rfl, Or.inl rfl⟩
      | ok updated =>
        simp only []
        cases getProp updated "name" with
        | error e => exact ⟨rfl, rfl, Or.inl rfl⟩
        | ok name => exact ⟨rfl, rfl, Or.inr ⟨rfl, by simp⟩⟩

theorem handleAssociateSubject_collections (env : Env) (s : App) :
    (handleAssociateSubject env s).2.subjects = s.subjects ∧
    (handleAssociateSubject env s).2.teachers = s.teachers ∧
    ((handleAssociateSubject env s).2.students = s.students ∨
      ((handleAssociateSubject env s).2.students = (fetchStudentsGlobal env s).2.students ∧
        studentService.getAllRequest
          ∈ (handleAssociateSubject env s).2.requests.drop s.requests.length)) := by
  cases hstudent : s.selectedStudentId.truthy with
  | false =>
    rw [handleAssociateSubject_unselected env s (Or.inl hstudent)]
    exact ⟨rfl, rfl, Or.inl rfl⟩
  | true =>
    cases hsubject : s.selectedSubjectId.truthy with
    | false =>
      rw [handleAssociateSubject_unselected env s (Or.inr hsubject)]
      exact ⟨rfl, rfl, Or.inl rfl⟩
    | true =>
      cases hout : env.fetch (studentService.addSubjectRequest s.selectedStudentId
          s.selectedSubjectId) >>= handleResponse with
      | error e =>
        rw [handleAssociateSubject_failure env s e hstudent hsubject hout]
        exact ⟨rfl, rfl, Or.inl rfl⟩
      | ok v =>
        rw [handleAssociateSubject_success env s v hstudent hsubject hout]
        exact ⟨rfl, rfl, Or.inr ⟨rfl, by simp⟩⟩

theorem handleTeacherSubmit_collections (env : Env) (s : App) :
    (handleTeacherSubmit env s).2.subjects = s.subjects ∧
    (handleTeacherSubmit env s).2.students = s.students ∧
    ((handleTeacherSubmit env s).2.teachers = s.teachers ∨
      ((handleTeacherSubmit env s).2.teachers = (fetchTeachersGlobal env s).2.teachers ∧
        teacherService.getAllRequest
          ∈ (handleTeacherSubmit env s).2.requests.drop s.requests.length)) := by
  simp only [handleTeacherSubmit, Act.bind_run, Act.read_run, Act.update_run,
    Act.tryCatch_run, Act.lift_run, teacherService_create_run, Act.detached_run,
    fetchTeachersGlobal_run]
  cases env.fetch (teacherService.createRequest
        (.obj [("name", .str s.teacherName),
               ("department", .str s.teacherDepartment)])) >>= handleResponse with
  | error e => exact ⟨rfl, rfl, Or.inl rfl⟩
  | ok newTeacher =>
    simp only []
    cases getProp newTeacher "name" with
    | error e => exact ⟨rfl, rfl, Or.inl rfl⟩
    | ok name =>
      simp only []
      cases getProp newTeacher "registry" with
      | error e => exact ⟨rfl, rfl, Or.inl rfl⟩
      | ok registry => exact ⟨rfl, rfl, Or.inr ⟨rfl, by simp⟩⟩

theorem handleDeleteTeacher_collections (env : Env) (s : App) (id name : JsValue) :
    (handleDeleteTeacher env id name s).2.subjects = s.subjects ∧
    (handleDeleteTeacher env id name s).2.students = s.students ∧
    ((handleDeleteTeacher env id name s).2.teachers = s.teachers ∨
      ((handleDeleteTeacher env id name s).2.teachers
          = (fetchTeachersGlobal env s).2.teachers ∧
        teacherService.getAllRequest
          ∈ (handleDeleteTeacher env id name s).2.requests.drop s.requests.length)) := by
  cases hc : env.confirm
      ("Tem certeza que deseja deletar o professor " ++ name.toJsString ++ "?") with
  | false =>
    simp [handleDeleteTeacher, hc, Act.pure_run]
  | true =>
    simp only [handleDeleteTeacher, hc, if_true, Act.tryCatch_run, Act.bind_run]
    rw [teacherService_delete_run]
    cases (teacherService.delete env id s).1 with
    | error e => exact ⟨rfl, rfl, Or.inl rfl⟩
    | ok v =>
      simp [Act.update_run, Act.detached_run, fetchTeachersGlobal_run]

theorem handleUpdateTeacher_collections (s : App) (teacher : JsValue) :
    (handleUpdateTeacher teacher s).2.subjects = s.subjects ∧
    (handleUpdateTeacher teacher s).2.students = s.students ∧
    (handleUpdateTeacher teacher s).2.teachers = s.teachers := by
  cases teacher <;>
  simp [handleUpdateTeacher, Act.bind_run, Act.update_run, Act.lift_run, getProp]

theorem handleCancelEditTeacher_collections (s : App) :
    (handleCancelEditTeacher s).2.subjects = s.subjects ∧
    (handleCancelEditTeacher s).2.students = s.students ∧
    (handleCancelEditTeacher s).2.teachers = s.teachers := by
  simp [handleCancelEditTeacher, Act.bind_run, Act.update_run]

theorem handleUpdateTeacherSubmit_collections (env : Env) (s : App) :
    (handleUpdateTeacherSubmit env s).2.subjects = s.subjects ∧
    (handleUpdateTeacherSubmit env s).2.students = s.students ∧
    ((handleUpdateTeacherSubmit env s).2.teachers = s.teachers ∨
      ((handleUpdateTeacherSubmit env s).2.teachers
          = (fetchTeachersGlobal env s).2.teachers ∧
        teacherService.getAllRequest
          ∈ (handleUpdateTeacherSubmit env s).2.requests.drop s.requests.length)) := by
  cases ht : s.editingTeacher.truthy
  · simp [handleUpdateTeacherSubmit, Act.bind_run, Act.read_run, Act.update_run, ht,
      Act.pure_run]
  · have hn := truthy_not_nullish _ ht
    simp only [handleUpdateTeacherSubmit, Act.bind_run, Act.read_run, Act.update_run,
      Act.tryCatch_run, Act.lift_run, ht,
      getProp_of_not_nullish _ _ hn, Bool.not_true, Bool.false_eq_true, if_false,
      Act.pure_run, teacherService_update_run, Act.detached_run, fetchTeachersGlobal_run]
    cases env.fetch (teacherService.updateRequest (field s.editingTeacher "id")
          (.obj [("registry", field s.editingTeacher "registry"),
                 ("name", s.editTeacherName),
                 ("department", s.editTeacherDepartment)])) >>= handleResponse with
    | error e => exact ⟨rfl, rfl, Or.inl rfl⟩
    | ok updated =>
      simp only []
      cases getProp updated "name" with
      | error e => exact ⟨rfl, rfl, Or.inl rfl⟩
      | ok name => exact ⟨rfl, rfl, Or.inr ⟨rfl, by simp⟩⟩

/-- C19: editors never mutate a shared collection.  For every state and every outcome of
the random sort, `handleStudentSubmit` leaves the subjects collection as it was.  With the
arrays taken as objects, the selection of lines 31 to 33 changes no array that existed
before it (the subjects array among them): the sort reorders the new array that `filter`
returned, and the values it computes are those of the handler.  Every workflow of the
student editor and the association workflow leave the teachers and subjects collections
unchanged, and leave the students collection unchanged or as the refetch stores it, the
listing request being among the requests issued; likewise every workflow of the teacher
editor for the teachers collection. -/
theorem editors_change_collections_by_refetch_only (env : Env) (s : App)
    (id name record : JsValue) :
    (handleStudentSubmit env s).2.subjects = s.subjects ∧
    (∀ (h : ArrayHeap) (subjects : Nat) (pool selected : List JsValue),
      filterE isFirstYear (h.read subjects) = .ok pool →
      mapE idOnly ((env.sortRandom pool).take 5) = .ok selected →
      ∃ (h2 : ArrayHeap) (firstYearSubjects selectedSubjectIds : Nat),
        selectSubjectsOnHeap env h subjects
          = .ok (h2, firstYearSubjects, selectedSubjectIds) ∧
        (∀ a, a < h.cells.length → h2.read a = h.read a) ∧
        h2.read firstYearSubjects = env.sortRandom pool ∧
        h2.read selectedSubjectIds = selected) ∧
    (∀ act ∈ [handleStudentSubmit env, handleDeleteStudent env id name,
        handleUpdateStudent record, handleCancelEditStudent,
        handleUpdateStudentSubmit env, handleAssociateSubject env],
      (act s).2.subjects = s.subjects ∧
      (act s).2.teachers = s.teachers ∧
      ((act s).2.students = s.students ∨
        ((act s).2.students = (fetchStudentsGlobal env s).2.students ∧
          studentService.getAllRequest ∈ (act s).2.requests.drop s.requests.length))) ∧
    (∀ act ∈ [handleTeacherSubmit env, handleDeleteTeacher env id name,
        handleUpdateTeacher record, handleCancelEditTeacher,
        handleUpdateTeacherSubmit env],
      (act s).2.subjects = s.subjects ∧
      (act s).2.students = s.students ∧
      ((act s).2.teachers = s.teachers ∨
        ((act s).2.teachers = (fetchTeachersGlobal env s).2.teachers ∧
          teacherService.getAllRequest ∈ (act s).2.requests.drop s.requests.length))) := by
  refine ⟨(handleStudentSubmit_collections env s).1, ?_, ?_, ?_⟩
  · intro h subjects pool selected hpool hsel
    refine ⟨_, _, _, selectSubjectsOnHeap_run env h subjects pool selected hpool hsel,
      fun a ha => ArrayHeap.read_extended h _ a ha, ?_, ?_⟩
    · exact ArrayHeap.read_appended h _ 0
    · exact ArrayHeap.read_appended h _ 2
  · intro act hact
    simp only [List.mem_cons, List.mem_singleton, List.not_mem_nil, or_false] at hact
    rcases hact with rfl | rfl | rfl | rfl | rfl | rfl
    · exact handleStudentSubmit_collections env s
    · exact handleDeleteStudent_collections env s id name
    · exact ⟨(handleUpdateStudent_collections s record).1,
        (handleUpdateStudent_collections s record).2.1,
        Or.inl (handleUpdateStudent_collections s record).2.2⟩
    · exact ⟨(handleCancelEditStudent_collections s).1,
        (handleCancelEditStudent_collections s).2.1,
        Or.inl (handleCancelEditStudent_collections s).2.2⟩
    · exact handleUpdateStudentSubmit_collections env s
    · exact handleAssociateSubject_collections env s
  · intro act hact
    simp only [List.mem_cons, List.mem_singleton, List.not_mem_nil, or_false] at hact
    rcases hact with rfl | rfl | rfl | rfl | rfl
    · exact handleTeacherSubmit_collections env s
    · exact handleDeleteTeacher_collections env s id name
    · exact ⟨(handleUpdateTeacher_collections s record).1,
        (handleUpdateTeacher_collections s record).2.1,
        Or.inl (handleUpdateTeacher_collections s record).2.2⟩
    · exact ⟨(handleCancelEditTeacher_collections s).1,
        (handleCancelEditTeacher_collections s).2.1,
        Or.inl (handleCancelEditTeacher_collections s).2.2⟩
    · exact handleUpdateTeacherSubmit_collections env s

/-- C19 (witness): on the heap that holds the four subjects at the address 0, the
selection with a sort that reverses leaves that array as it was, puts the reversed year-1
pool into a new array and the three ids into another. -/
theorem editors_change_collections_by_refetch_only_witness :
    filterE isFirstYear (subjectsHeap.read 0)
      = .ok [subjectRecord 1 "Algebra" 1, subjectRecord 3 "Logic" 1,
          subjectRecord 4 "Writing" 1] ∧
    ∃ (h2 : ArrayHeap) (firstYearSubjects selectedSubjectIds : Nat),
      selectSubjectsOnHeap envCreating subjectsHeap 0
        = .ok (h2, firstYearSubjects, selectedSubjectIds) ∧
      (∀ a, a < subjectsHeap.cells.length → h2.read a = subjectsHeap.read a) ∧
      h2.read firstYearSubjects
        = envCreating.sortRandom [subjectRecord 1 "Algebra" 1, subjectRecord 3 "Logic" 1,
            subjectRecord 4 "Writing" 1] ∧
      h2.read selectedSubjectIds
        = [.obj [("id", .num 4)], .obj [("id", .num 3)], .obj [("id", .num 1)]] :=
  ⟨rfl, (editors_change_collections_by_refetch_only envCreating threeFirstYearApp
    (.num 1) (.str "Ana") .null).2.1 subjectsHeap 0 _ _ rfl rfl⟩

/-! ## The identifier 0 in the association form -/

/-- C13 (failing input): after a listing whose first student has the id 0, the effect of
the form stores the number 0 as the selected student and 12 as the selected subject;
neither is the empty string.  On submit `handleAssociateSubject` shows the validation
message with the type `error` and issues no request, since `!selectedStudentId` holds of
the number 0.  The same student chosen through the select control, whose value is the
string `"0"`, gets its attach request `POST /students/0/subjects/12`. -/
theorem associate_rejects_identifier_zero :
    ((selectionEffect zeroIdApp).1 = .ok () ∧
      (selectionEffect zeroIdApp).2.selectedStudentId = .num 0 ∧
      (selectionEffect zeroIdApp).2.selectedSubjectId = .num 12 ∧
      (JsValue.num 0).strictEqEmptyString = false ∧
      (JsValue.num 12).strictEqEmptyString = false) ∧
    ((handleAssociateSubject envAttaching (selectionEffect zeroIdApp).2).2.associationMessage
        = "Selecione um aluno e uma matéria para associar." ∧
      (handleAssociateSubject envAttaching
        (selectionEffect zeroIdApp).2).2.associationMessageType = "error" ∧
      (handleAssociateSubject envAttaching (selectionEffect zeroIdApp).2).2.requests = []) ∧
    (handleAssociateSubject envAttaching zeroIdChosenApp).2.requests
      = [Request.mk "POST" "http://localhost:8080/students/0/subjects/12" [] none,
         studentService.getAllRequest] :=
  ⟨⟨rfl, rfl, rfl, rfl, rfl⟩, ⟨rfl, rfl, rfl⟩, rfl⟩

/-! ## A created record that is `null` -/

/-- C15 (failing input): the forms are filled in and the server answers the POST with 201
and the body `null`.  The call of `create` succeeds, returning `null`; reading `name` from
it for the success message throws inside the `try`, so `handleStudentSubmit` and
`handleTeacherSubmit` end in their `catch`: the fields keep the entered values, the
message is the error prefix with the text of the `TypeError` and the type `error`, and no
listing request follows the create request. -/
theorem create_null_record_keeps_fields :
    ((studentService.create envCreatingNull
        (.obj [("name", .str "Ana"), ("current_year", .num 2), ("shift", .str "N"),
               ("subjects", .arr [])]) filledFormsApp).1 = .ok .null ∧
      (handleStudentSubmit envCreatingNull filledFormsApp).2.studentName = "Ana" ∧
      (handleStudentSubmit envCreatingNull filledFormsApp).2.currentYear = "2" ∧
      (handleStudentSubmit envCreatingNull filledFormsApp).2.studentShift = "N" ∧
      (handleStudentSubmit envCreatingNull filledFormsApp).2.studentMessage
        = "Erro ao cadastrar aluno: Cannot read properties of null (reading 'name')" ∧
      (handleStudentSubmit envCreatingNull filledFormsApp).2.studentMessageType = "error" ∧
      (handleStudentSubmit envCreatingNull filledFormsApp).2.requests
        = [studentService.createRequest
            (.obj [("name", .str "Ana"), ("current_year", .num 2), ("shift", .str "N"),
                   ("subjects", .arr [])])]) ∧
    ((teacherService.create envCreatingNull
        (.obj [("name", .str "Silva"), ("department", .str "Physics")]) filledFormsApp).1
        = .ok .null ∧
      (handleTeacherSubmit envCreatingNull filledFormsApp).2.teacherName = "Silva" ∧
      (handleTeacherSubmit envCreatingNull filledFormsApp).2.teacherDepartment = "Physics" ∧
      (handleTeacherSubmit envCreatingNull filledFormsApp).2.teacherMessage
        = "Erro ao cadastrar professor: Cannot read properties of null (reading 'name')" ∧
      (handleTeacherSubmit envCreatingNull filledFormsApp).2.teacherMessageType = "error" ∧
      (handleTeacherSubmit envCreatingNull filledFormsApp).2.requests
        = [teacherService.createRequest
            (.obj [("name", .str "Silva"), ("department", .str "Physics")])]) :=
  ⟨⟨rfl, rfl, rfl, rfl, rfl, rfl, rfl⟩, rfl, rfl, rfl, rfl, rfl, rfl⟩

/-! ## Validation by the create forms -/

theorem submitStudentForm_blocked (env : Env) (s : App) (h : studentFormValid s = false) :
    submitStudentForm env s = (.ok (), s) := by
  simp only [submitStudentForm, Act.bind_run, Act.read_run, h, Bool.false_eq_true,
    if_false, Act.pure_run]

theorem submitTeacherForm_blocked (env : Env) (s : App) (h : teacherFormValid s = false) :
    submitTeacherForm env s = (.ok (), s) := by
  simp only [submitTeacherForm, Act.bind_run, Act.read_run, h, Bool.false_eq_true,
    if_false, Act.pure_run]

/-- C16: the create workflow validates the required fields before calling the server.  For
every submit of the student form in which the name is empty, or the year is empty or is
not a number (the text is not one that the input of type `number` reads as a number), and
for every submit of the teacher form in which the name or the department is empty, the
constraints of the form fail, `handleStudentSubmit` resp. `handleTeacherSubmit` is not
called, and the state, the request log included, is as it was: no create request is
issued.  When the constraints hold, the submit is the call of the handler. -/
theorem create_forms_validate_before_request (env : Env) (s : App) :
    ((s.studentName = "" ∨ s.currentYear = "" ∨ numberInputValue s.currentYear = none) →
      submitStudentForm env s = (.ok (), s)) ∧
    ((s.teacherName = "" ∨ s.teacherDepartment = "") →
      submitTeacherForm env s = (.ok (), s)) ∧
    (studentFormValid s = true → submitStudentForm env s = handleStudentSubmit env s) ∧
    (teacherFormValid s = true → submitTeacherForm env s = handleTeacherSubmit env s) := by
  refine ⟨?_, ?_, ?_, ?_⟩
  · intro h
    apply submitStudentForm_blocked
    rcases h with h | h | h
    · simp [studentFormValid, h]
    · have hnone : numberInputValue s.currentYear = none := by rw [h]; rfl
      simp [studentFormValid, hnone]
    · simp [studentFormValid, h]
  · intro h
    apply submitTeacherForm_blocked
    rcases h with h | h
    · simp [teacherFormValid, h]
    · simp [teacherFormValid, h]
  · intro h
    simp only [submitStudentForm, Act.bind_run, Act.read_run, h, if_true]
  · intro h
    simp only [submitTeacherForm, Act.bind_run, Act.read_run, h, if_true]

/-- C16 (witness): a submit of the blank forms issues no request, and a submit of the
filled-in forms is the call of the handlers, which issue the create requests. -/
theorem create_forms_validate_before_request_witness :
    (({} : App).studentName = "" ∧
      submitStudentForm envCreating {} = (.ok (), {}) ∧
      (submitStudentForm envCreating {}).2.requests = []) ∧
    (({} : App).teacherName = "" ∧
      submitTeacherForm envCreating {} = (.ok (), {})) ∧
    (studentFormValid filledFormsApp = true ∧
      submitStudentForm envCreating filledFormsApp
        = handleStudentSubmit envCreating filledFormsApp ∧
      (submitStudentForm envCreating filledFormsApp).2.requests
        = [studentService.createRequest
            (.obj [("name", .str "Ana"), ("current_year", .num 2), ("shift", .str "N"),
                   ("subjects", .arr [])]), studentService.getAllRequest]) :=
  have h1 := (create_forms_validate_before_request envCreating {}).1 (Or.inl rfl)
  have h2 := (create_forms_validate_before_request envCreating {}).2.1 (Or.inl rfl)
  have h3 := (create_forms_validate_before_request envCreating filledFormsApp).2.2.1 rfl
  ⟨⟨rfl, h1, congrArg (fun p => p.2.requests) h1⟩, ⟨rfl, h2⟩, rfl, h3, rfl⟩

end CollegeApp
